import Mathlib

/-!
Verification of the DES simulation engine (`data_manger.py` and
`streamlit_app/simulation_engine.py`) against its natural-language
specification.

The embedding is a shallow one:

* pandas float columns that can hold `NaN` are modelled as `Option ℚ`
  (`none` is `NaN`); arithmetic propagates `none` and every ordering
  comparison against `none` is `false`, exactly as IEEE comparisons
  against `NaN` evaluate in Python.
* the global numpy pseudorandom state is modelled as an explicit value
  of type `Rng` (a stream of raw draws plus a cursor) threaded through
  every function in state-passing style; a Python function that may
  raise and that touches the stream is modelled as returning
  `Except String α × Rng`, so the state at the moment an exception
  propagates is visible.
* DataFrames are lists of records; `sort_values`, `groupby(...).tail(1)`
  and boolean-mask filtering are modelled by an insertion sort (stable,
  like the sorts pandas offers), a keep-last-occurrence pass and
  `List.filter`.
* `np.random.normal(loc, scale)` is modelled as `loc + scale * z` where
  `z` is the next raw draw of the stream, and
  `np.random.weibull(a) * scale` as `w * scale` where `w` is the next
  raw draw (numpy produces the shape-`a` distributed value internally;
  only the arithmetic visible in the Python source is modelled).
-/

namespace DES

/-! ## Floats with NaN -/

/-- A pandas float cell: `none` models `NaN`. -/
abbrev PFloat : Type := Option ℚ

/-- Float addition; `NaN` propagates, as in IEEE arithmetic. -/
def fadd : PFloat → PFloat → PFloat
  | some x, some y => some (x + y)
  | _, _ => none

/-- The comparison `a <= b` on a float cell; any comparison with `NaN`
is `false`, as in IEEE arithmetic. -/
def fle (a : PFloat) (b : ℚ) : Bool :=
  match a with
  | some x => decide (x ≤ b)
  | none => false

/-- The comparison `a > b` on a float cell; `NaN > b` is `false`. -/
def fgt (a : PFloat) (b : ℚ) : Bool :=
  match a with
  | some x => decide (b < x)
  | none => false

/-- The comparison `a == b` on a float cell; `NaN == b` is `false`. -/
def feq (a : PFloat) (b : ℚ) : Bool :=
  match a with
  | some x => decide (x = b)
  | none => false

/-- Rounding to the nearest integer, ties to even: the rounding used by
`numpy`/`pandas` `round()`. -/
def roundHalfEven (q : ℚ) : ℤ :=
  let f : ℤ := ⌊q⌋
  let r : ℚ := q - f
  if r < 1 / 2 then f
  else if 1 / 2 < r then f + 1
  else if Even f then f else f + 1

/-- Rounding of a float cell; `NaN` rounds to `NaN`. -/
def fround : PFloat → PFloat
  | some q => some ((roundHalfEven q : ℤ) : ℚ)
  | none => none

/-! ## The pseudorandom stream -/

/-- The global numpy pseudorandom state: an infinite stream of raw draws
and a cursor.  Each sampling call reads `stream idx` and advances the
cursor; reseeding would replace the whole state. -/
structure Rng where
  stream : ℕ → ℚ
  idx : ℕ

/-- The raw draw the next sampling call will consume. -/
def Rng.head (g : Rng) : ℚ := g.stream g.idx

/-- The state after consuming one raw draw. -/
def Rng.next (g : Rng) : Rng := ⟨g.stream, g.idx + 1⟩

/-- State of the stream right after `np.random.seed n`.  The values are
irrelevant to every theorem below: the only reseed statement in the
source is proved unreachable. -/
def Rng.seeded (n : ℕ) : Rng := ⟨fun _ => (n : ℚ), 0⟩

/-! ## Cell values

A parameter-table cell normally holds a distribution name (a string) or
a numeric parameter, but an override can write a float into a
distribution column, so a distribution cell is a tagged union. -/

/-- A value stored in a distribution column of the parameter table. -/
inductive CellVal where
  | str (s : String)
  | num (q : ℚ)
deriving DecidableEq

/-- Printable form of a cell value, used in the unsupported-distribution
error message. -/
def CellVal.show : CellVal → String
  | .str s => s
  | .num q => toString q

/-! ## The distribution sampler

`DFManager._sample_duration` is:

```python
def _sample_duration(self, dist_name, val1, val2):
    if dist_name == "normal":
        return max(0, np.random.normal(loc=val1, scale=val2))
    elif dist_name == "weibull":
        return max(0, np.random.weibull(a=val1) * val2)
    else:
        raise ValueError(f"Unsupported distribution ...")
    np.random.seed(123)
```

The body is embedded twice: once as the plain function `sample_duration`
used by the rest of the engine, and once statement by statement
(`sampleBody` / `runBody`) so that the trailing `np.random.seed(123)`
statement is part of the model and its unreachability is a theorem, not
an assumption. -/

/-- The unsupported-distribution error message. -/
def unsupportedMsg (dist : CellVal) : String :=
  "Unsupported distribution " ++ dist.show

/-- Plain embedding of `_sample_duration`: on success it returns the
sampled duration and the advanced stream; on an unsupported distribution
it raises, leaving the stream untouched. -/
def sample_duration (dist : CellVal) (val1 val2 : ℚ) (g : Rng) :
    Except String ℚ × Rng :=
  if dist = .str "normal" then
    (.ok (max 0 (val1 + val2 * g.head)), g.next)
  else if dist = .str "weibull" then
    (.ok (max 0 (g.head * val2)), g.next)
  else
    (.error (unsupportedMsg dist), g)

/-- One statement of the `_sample_duration` body. -/
inductive SampleStmt where
  | iteNormal
  | iteWeibull
  | raiseUnsupported
  | reseed (n : ℕ)

/-- The `_sample_duration` body, statement by statement: the
`if/elif/else` chain (linearised: each guarded branch returns or raises,
so falling through a guard moves to the next statement) followed by the
trailing `np.random.seed(123)`. -/
def sampleBody : List SampleStmt :=
  [.iteNormal, .iteWeibull, .raiseUnsupported, .reseed 123]

/-- Result of executing one statement: return a value, raise, or fall
through to the next statement. -/
inductive StmtResult where
  | ret (v : ℚ) (g : Rng)
  | exc (msg : String) (g : Rng)
  | next (g : Rng)

/-- Execute one statement of the sampler body. -/
def execStmt (dist : CellVal) (val1 val2 : ℚ) (g : Rng) :
    SampleStmt → StmtResult
  | .iteNormal =>
      if dist = .str "normal" then
        .ret (max 0 (val1 + val2 * g.head)) g.next
      else .next g
  | .iteWeibull =>
      if dist = .str "weibull" then
        .ret (max 0 (g.head * val2)) g.next
      else .next g
  | .raiseUnsupported => .exc (unsupportedMsg dist) g
  | .reseed n => .next (Rng.seeded n)

/-- Outcome of running a statement list to completion. -/
inductive BodyResult where
  | ret (v : ℚ) (g : Rng)
  | exc (msg : String) (g : Rng)
  | fellOff (g : Rng)

/-- Run a statement list; the boolean records whether any `reseed`
statement was actually executed. -/
def runBody (dist : CellVal) (val1 val2 : ℚ) :
    Rng → List SampleStmt → BodyResult × Bool
  | g, [] => (.fellOff g, false)
  | g, s :: rest =>
    match execStmt dist val1 val2 g s with
    | .ret v g2 => (.ret v g2, false)
    | .exc m g2 => (.exc m g2, false)
    | .next g2 =>
      let tail := runBody dist val1 val2 g2 rest
      (tail.1, (match s with | .reseed _ => true | _ => false) || tail.2)

/-! ## The parameter table -/

/-- One row of the parameter table built by `create_params_df`: the
period, the total-parts count, and for each of the four stages the
distribution cell and its two numeric parameters.  Field names follow
the DataFrame column names. -/
structure ParamsRow where
  period : ℤ
  n_total_parts : ℕ
  stage_one_dist : CellVal
  stage_one_dist_value_1 : ℚ
  stage_one_dist_value_2 : ℚ
  stage_two_dist : CellVal
  stage_two_dist_value_1 : ℚ
  stage_two_dist_value_2 : ℚ
  stage_three_dist : CellVal
  stage_three_dist_value_1 : ℚ
  stage_three_dist_value_2 : ℚ
  stage_four_dist : CellVal
  stage_four_dist_value_1 : ℚ
  stage_four_dist_value_2 : ℚ
deriving DecidableEq

/-- One user override directive, as produced by the UI: a dict with an
integer "period", a string "stage" label and a float "value". -/
structure Edit where
  period : ℤ
  stage : String
  value : ℚ
deriving DecidableEq

/-- The fixed `STAGE_LABEL_MAP` of `DFManager`, as a lookup from the
UI-facing label to the column name (`dict.get`, `none` when absent). -/
def STAGE_LABEL_MAP (label : String) : Option String :=
  if label = "Stage One Dist" then some "stage_one_dist"
  else if label = "Stage One Param 1" then some "stage_one_dist_value_1"
  else if label = "Stage One Param 2" then some "stage_one_dist_value_2"
  else if label = "Stage Two Dist" then some "stage_two_dist"
  else if label = "Stage Two Param 1" then some "stage_two_dist_value_1"
  else if label = "Stage Two Param 2" then some "stage_two_dist_value_2"
  else if label = "Stage Three Dist" then some "stage_three_dist"
  else if label = "Stage Three Param 1" then some "stage_three_dist_value_1"
  else if label = "Stage Three Param 2" then some "stage_three_dist_value_2"
  else if label = "Stage Four Dist" then some "stage_four_dist"
  else if label = "Stage Four Param 1" then some "stage_four_dist_value_1"
  else if label = "Stage Four Param 2" then some "stage_four_dist_value_2"
  else none

/-- Write a value into the named cell of a row
(`df.loc[df["period"] == period, stage_col] = value` restricted to one
row).  Writing a float into a distribution column stores `CellVal.num`,
as pandas would store the float into the object column. -/
def setCell (r : ParamsRow) (col : String) (v : ℚ) : ParamsRow :=
  if col = "stage_one_dist" then { r with stage_one_dist := .num v }
  else if col = "stage_one_dist_value_1" then { r with stage_one_dist_value_1 := v }
  else if col = "stage_one_dist_value_2" then { r with stage_one_dist_value_2 := v }
  else if col = "stage_two_dist" then { r with stage_two_dist := .num v }
  else if col = "stage_two_dist_value_1" then { r with stage_two_dist_value_1 := v }
  else if col = "stage_two_dist_value_2" then { r with stage_two_dist_value_2 := v }
  else if col = "stage_three_dist" then { r with stage_three_dist := .num v }
  else if col = "stage_three_dist_value_1" then { r with stage_three_dist_value_1 := v }
  else if col = "stage_three_dist_value_2" then { r with stage_three_dist_value_2 := v }
  else if col = "stage_four_dist" then { r with stage_four_dist := .num v }
  else if col = "stage_four_dist_value_1" then { r with stage_four_dist_value_1 := v }
  else if col = "stage_four_dist_value_2" then { r with stage_four_dist_value_2 := v }
  else r

/-- The mission-need override mapping `self.mission_need_overrides`.
`dict[k] = v` is modelled by consing `(k, v)` in front, and `dict.get`
by first-match lookup, so a later write to the same key wins. -/
abbrev MNOverrides : Type := List (ℤ × ℚ)

/-- Lookup in the mission-need override mapping (`dict.get`). -/
def dictGet : MNOverrides → ℤ → Option ℚ
  | [], _ => none
  | (k, v) :: rest, p => if k = p then some v else dictGet rest p

/-- Apply one override directive (one iteration of the loop in
`_apply_custom_params`): a "Mission Need" directive is recorded in the
override mapping; any other directive is resolved through
`STAGE_LABEL_MAP` and, when resolution succeeds, written into the
matching period rows of the table; when resolution fails
(`stage_col in df.columns` is false for `None`) nothing changes. -/
def apply_one (st : List ParamsRow × MNOverrides) (e : Edit) :
    List ParamsRow × MNOverrides :=
  if e.stage = "Mission Need" then
    (st.1, (e.period, e.value) :: st.2)
  else
    match STAGE_LABEL_MAP e.stage with
    | some col =>
        (st.1.map fun r => if r.period = e.period then setCell r col e.value else r,
         st.2)
    | none => st

/-- Embedding of `_apply_custom_params`: fold the directives over the
table and the override mapping, in list order. -/
def apply_custom_params (edits : List Edit)
    (st : List ParamsRow × MNOverrides) : List ParamsRow × MNOverrides :=
  edits.foldl apply_one st

/-- Embedding of `create_params_df`.  Python indexes
`stage_dist[0..3]`, `stage_dist_value_1[0..3]`, `stage_dist_value_2[0..3]`;
any of those accesses raises `IndexError` exactly when the matching list
has fewer than four elements, which the first match arm captures.  On
success one row per period `1..sim_time` is built and, when the override
list is non-empty (Python truthiness of `self.custom_params`), the
overrides are applied. -/
def create_params_df (sim_time : ℕ) (n_total_parts : ℕ)
    (stage_dists : List String) (stage_param1 stage_param2 : List ℚ)
    (custom_params : List Edit) :
    Except String (List ParamsRow × MNOverrides) :=
  match stage_dists, stage_param1, stage_param2 with
  | d1 :: d2 :: d3 :: d4 :: _, a1 :: a2 :: a3 :: a4 :: _, b1 :: b2 :: b3 :: b4 :: _ =>
    let base : List ParamsRow :=
      (List.range sim_time).map fun (i : ℕ) =>
        { period := (i : ℤ) + 1
          n_total_parts := n_total_parts
          stage_one_dist := .str d1
          stage_one_dist_value_1 := a1
          stage_one_dist_value_2 := b1
          stage_two_dist := .str d2
          stage_two_dist_value_1 := a2
          stage_two_dist_value_2 := b2
          stage_three_dist := .str d3
          stage_three_dist_value_1 := a3
          stage_three_dist_value_2 := b3
          stage_four_dist := .str d4
          stage_four_dist_value_1 := a4
          stage_four_dist_value_2 := b4 }
    if custom_params = [] then .ok (base, [])
    else .ok (apply_custom_params custom_params (base, []))
  | _, _, _ => .error "IndexError: list index out of range"

/-! ## Lifecycle records -/

/-- One lifecycle record (one row of `sim_df`).  The `period` column is
only present on rows appended by `_generate_new_cycle`; `pd.concat`
fills `NaN` for the initial rows, modelled by `none`.  All start/end
instants are float cells; only `stage_four_end` is ever assigned `NaN`
by the engine, but the field types follow the column types. -/
structure Record where
  period : Option ℤ
  part_id : ℕ
  cycle : ℕ
  condemn : String
  stage_one_duration : ℚ
  stage_two_duration : ℚ
  stage_three_duration : ℚ
  stage_four_duration : ℚ
  stage_one_start : PFloat
  stage_one_end : PFloat
  stage_two_start : PFloat
  stage_two_end : PFloat
  stage_three_start : PFloat
  stage_three_end : PFloat
  stage_four_start : PFloat
  stage_four_end : PFloat
deriving DecidableEq

/-- Draw `n` durations for one stage column of the initial table
(the list comprehension in `create_initial_sim_df`), threading the
stream; a sampler error aborts the whole column. -/
def sampleColumn (dist : CellVal) (val1 val2 : ℚ) :
    ℕ → Rng → Except String (List ℚ) × Rng
  | 0, g => (.ok [], g)
  | n + 1, g =>
    match sample_duration dist val1 val2 g with
    | (.error e, g2) => (.error e, g2)
    | (.ok d, g2) =>
      match sampleColumn dist val1 val2 n g2 with
      | (.error e, g3) => (.error e, g3)
      | (.ok ds, g3) => (.ok (d :: ds), g3)

/-- Assemble the initial rows from the four sampled duration columns:
part ids count up from `pid`, cycle is 1, condemn is "no", stage one
starts at 1.0 and the stage instants chain
(`start[i+1] = end[i]`, `end[i] = start[i] + duration[i]`). -/
def buildInitRecords : ℕ → List ℚ → List ℚ → List ℚ → List ℚ → List Record
  | pid, a :: as, b :: bs, c :: cs, d :: ds =>
    { period := none
      part_id := pid
      cycle := 1
      condemn := "no"
      stage_one_duration := a
      stage_two_duration := b
      stage_three_duration := c
      stage_four_duration := d
      stage_one_start := some 1
      stage_one_end := some (1 + a)
      stage_two_start := some (1 + a)
      stage_two_end := some (1 + a + b)
      stage_three_start := some (1 + a + b)
      stage_three_end := some (1 + a + b + c)
      stage_four_start := some (1 + a + b + c)
      stage_four_end := some (1 + a + b + c + d) }
      :: buildInitRecords (pid + 1) as bs cs ds
  | _, _, _, _, _ => []

/-- Embedding of `create_initial_sim_df`: reads the period-1 row of the
stored parameter table (`iloc[0]`, an `IndexError` when the table is
empty), samples each stage column in turn for all parts, then chains the
start/end instants. -/
def create_initial_sim_df (params : List ParamsRow) (n_total_parts : ℕ)
    (g : Rng) : Except String (List Record) × Rng :=
  match params.head? with
  | none => (.error "IndexError: single positional indexer is out-of-bounds", g)
  | some row0 =>
    match sampleColumn row0.stage_one_dist row0.stage_one_dist_value_1
        row0.stage_one_dist_value_2 n_total_parts g with
    | (.error e, g1) => (.error e, g1)
    | (.ok c1, g1) =>
      match sampleColumn row0.stage_two_dist row0.stage_two_dist_value_1
          row0.stage_two_dist_value_2 n_total_parts g1 with
      | (.error e, g2) => (.error e, g2)
      | (.ok c2, g2) =>
        match sampleColumn row0.stage_three_dist row0.stage_three_dist_value_1
            row0.stage_three_dist_value_2 n_total_parts g2 with
        | (.error e, g3) => (.error e, g3)
        | (.ok c3, g3) =>
          match sampleColumn row0.stage_four_dist row0.stage_four_dist_value_1
              row0.stage_four_dist_value_2 n_total_parts g3 with
          | (.error e, g4) => (.error e, g4)
          | (.ok c4, g4) => (.ok (buildInitRecords 1 c1 c2 c3 c4), g4)

/-! ## The active-part projection -/

/-- The pandas sort key used by `sort_values(["part_id", "stage_four_end"])`
with the default `na_position="last"`: `NaN` compares above every
number. -/
def fkeyLe : PFloat → PFloat → Bool
  | _, none => true
  | none, some _ => false
  | some x, some y => decide (x ≤ y)

/-- Row comparison for the projection sort: by part id, then by the
stage-4 end key. -/
def pandasLe (a b : Record) : Bool :=
  decide (a.part_id < b.part_id) ||
    (decide (a.part_id = b.part_id) && fkeyLe a.stage_four_end b.stage_four_end)

/-- The sort relation as a proposition, for `List.insertionSort`. -/
def RecLE (a b : Record) : Prop := pandasLe a b = true

instance : DecidableRel RecLE := fun _ _ => instDecidableEqBool _ _

/-- Keep, for each part id, only the last occurrence in the list
(`groupby("part_id", as_index=False).tail(1)` on a part-sorted frame),
preserving relative order. -/
def keepLast : List Record → List Record
  | [] => []
  | r :: rest =>
    if rest.any (fun s => s.part_id == r.part_id) then keepLast rest
    else r :: keepLast rest

/-- Rounding of the `stage_four_end` column of a projected row. -/
def roundRec (r : Record) : Record :=
  { r with stage_four_end := fround r.stage_four_end }

/-- Embedding of `create_active_parts_df` (the identical expression is
inlined again at the end of `_simulate_period`): drop condemned rows,
sort by part id then stage-4 end (stable, `NaN` last), keep the last row
per part, then round the stage-4 end column. -/
def create_active_parts_df (sim_df : List Record) : List Record :=
  (keepLast (List.insertionSort RecLE
      (sim_df.filter fun r => r.condemn == "no"))).map roundRec

/-! ## The period stepper and the simulation loop -/

/-- One MICAP log entry. -/
structure MicapEntry where
  period : ℤ
  active_stage_one : ℕ
  mission_need : ℚ
  micap : ℚ
deriving DecidableEq

/-- Embedding of `_generate_new_cycle`: look up the part's last row in
`sim_df` (`iloc[-1]`) and the parameter row for the current period
(`iloc[0]` of the period filter), sample the four stage durations in
order, chain the instants from the predecessor's stage-4 end, and blank
the new stage-4 end when it overshoots the horizon. -/
def generate_new_cycle (part_id : ℕ) (period : ℤ) (sim_time : ℕ)
    (params : List ParamsRow) (sim_df : List Record) (g : Rng) :
    Except String Record × Rng :=
  match (sim_df.filter fun r => r.part_id == part_id).getLast? with
  | none => (.error "IndexError: index -1 is out of bounds", g)
  | some part_row =>
    match (params.filter fun r => r.period == period).head? with
    | none => (.error "IndexError: single positional indexer is out-of-bounds", g)
    | some pp =>
      match sample_duration pp.stage_one_dist pp.stage_one_dist_value_1
          pp.stage_one_dist_value_2 g with
      | (.error e, g1) => (.error e, g1)
      | (.ok d1, g1) =>
        match sample_duration pp.stage_two_dist pp.stage_two_dist_value_1
            pp.stage_two_dist_value_2 g1 with
        | (.error e, g2) => (.error e, g2)
        | (.ok d2, g2) =>
          match sample_duration pp.stage_three_dist pp.stage_three_dist_value_1
              pp.stage_three_dist_value_2 g2 with
          | (.error e, g3) => (.error e, g3)
          | (.ok d3, g3) =>
            match sample_duration pp.stage_four_dist pp.stage_four_dist_value_1
                pp.stage_four_dist_value_2 g3 with
            | (.error e, g4) => (.error e, g4)
            | (.ok d4, g4) =>
              let s1s := part_row.stage_four_end
              let s1e := fadd s1s (some d1)
              let s2e := fadd s1e (some d2)
              let s3e := fadd s2e (some d3)
              let s4e := fadd s3e (some d4)
              (.ok
                { period := some period
                  part_id := part_id
                  cycle := part_row.cycle + 1
                  condemn := part_row.condemn
                  stage_one_duration := d1
                  stage_two_duration := d2
                  stage_three_duration := d3
                  stage_four_duration := d4
                  stage_one_start := s1s
                  stage_one_end := s1e
                  stage_two_start := s1e
                  stage_two_end := s2e
                  stage_three_start := s2e
                  stage_three_end := s3e
                  stage_four_start := s3e
                  stage_four_end := if fgt s4e (sim_time : ℚ) then none else s4e },
                g4)

/-- The list comprehension over `ending_parts["part_id"]`: regenerate a
cycle for each finished part in row order, threading the stream; the
rows are generated against the table as it was before the append. -/
def genCycles (ids : List ℕ) (period : ℤ) (sim_time : ℕ)
    (params : List ParamsRow) (sim_df : List Record) (g : Rng) :
    Except String (List Record) × Rng :=
  match ids with
  | [] => (.ok [], g)
  | i :: rest =>
    match generate_new_cycle i period sim_time params sim_df g with
    | (.error e, g2) => (.error e, g2)
    | (.ok row, g2) =>
      match genCycles rest period sim_time params sim_df g2 with
      | (.error e, g3) => (.error e, g3)
      | (.ok rows, g3) => (.ok (row :: rows), g3)

/-- Embedding of `_simulate_period`: resolve the effective mission need
(the override mapping, else the baseline), count the non-condemned rows
currently inside stage one, log the MICAP shortfall, regenerate a cycle
for every part whose active row's rounded stage-4 end equals the period,
append the new rows and recompute the active projection (the source
inlines the body of `create_active_parts_df` verbatim here). -/
def simulate_period (mission_need : ℤ) (ovr : MNOverrides) (period : ℤ)
    (params : List ParamsRow) (sim_time : ℕ)
    (sim_df active_parts_df : List Record) (g : Rng) :
    Except String (MicapEntry × List Record × List Record) × Rng :=
  let current_need : ℚ := (dictGet ovr period).getD (mission_need : ℚ)
  let active_count : ℕ :=
    (sim_df.filter fun r =>
      fle r.stage_one_start (period : ℚ) && fgt r.stage_one_end (period : ℚ)
        && r.condemn == "no").length
  let micap : ℚ := max 0 (current_need - active_count)
  let entry : MicapEntry :=
    { period := period
      active_stage_one := active_count
      mission_need := current_need
      micap := micap }
  let ending := active_parts_df.filter fun r => feq r.stage_four_end (period : ℚ)
  match genCycles (ending.map (fun r => r.part_id)) period sim_time params sim_df g with
  | (.error e, g2) => (.error e, g2)
  | (.ok new_rows, g2) =>
    let sim_df2 := sim_df ++ new_rows
    (.ok (entry, sim_df2, create_active_parts_df sim_df2), g2)

/-- The loop of `process_simulation` over `params_df["period"]`,
accumulating the MICAP log; the progress reporting to the UI observer
has no effect on the data and is not modelled. -/
def sim_loop (mission_need : ℤ) (ovr : MNOverrides) (params : List ParamsRow)
    (sim_time : ℕ) :
    List ℤ → List Record → List Record → List MicapEntry → Rng →
      Except String (List Record × List MicapEntry) × Rng
  | [], sim_df, _, log, g => (.ok (sim_df, log), g)
  | p :: ps, sim_df, active, log, g =>
    match simulate_period mission_need ovr p params sim_time sim_df active g with
    | (.error e, g2) => (.error e, g2)
    | (.ok (entry, sim_df2, active2), g2) =>
      sim_loop mission_need ovr params sim_time ps sim_df2 active2 (log ++ [entry]) g2

/-- Embedding of `process_simulation`. -/
def process_simulation (mission_need : ℤ) (ovr : MNOverrides)
    (params : List ParamsRow) (sim_time : ℕ)
    (sim_df active_parts_df : List Record) (g : Rng) :
    Except String (List Record × List MicapEntry) × Rng :=
  sim_loop mission_need ovr params sim_time (params.map fun r => r.period)
    sim_df active_parts_df [] g

/-- Embedding of `run_simulation` from `simulation_engine.py`: build the
parameter table (applying overrides), create the initial lifecycle
table, project the active parts, then run the main loop.  An uncaught
Python exception anywhere aborts the run; the returned stream state is
the global numpy state at that moment. -/
def run_simulation (sim_time : ℕ) (total_parts : ℕ) (mission_need : ℤ)
    (stage_dist : List String) (stage_param1 stage_param2 : List ℚ)
    (custom_params : List Edit) (g : Rng) :
    Except String (List Record × List MicapEntry) × Rng :=
  match create_params_df sim_time total_parts stage_dist stage_param1
      stage_param2 custom_params with
  | .error e => (.error e, g)
  | .ok (params, ovr) =>
    match create_initial_sim_df params total_parts g with
    | (.error e, g1) => (.error e, g1)
    | (.ok sim_df, g1) =>
      process_simulation mission_need ovr params sim_time sim_df
        (create_active_parts_df sim_df) g1

/-! ## Shared lemmas -/

/-- Writing any cell never changes the period column of a row. -/
theorem setCell_period (r : ParamsRow) (c : String) (v : ℚ) :
    (setCell r c v).period = r.period := by
  unfold setCell
  simp only [apply_ite (fun x : ParamsRow => x.period)]
  simp only [ite_self]

/-- One override directive never changes the period column of the table. -/
theorem apply_one_period_map (st : List ParamsRow × MNOverrides) (e : Edit) :
    (apply_one st e).1.map (fun r => r.period) = st.1.map (fun r => r.period) := by
  unfold apply_one
  split_ifs
  · rfl
  · rcases h : STAGE_LABEL_MAP e.stage with _ | col
    · rfl
    · simp only [List.map_map]
      refine List.map_congr_left fun r _ => ?_
      by_cases hp : r.period = e.period <;> simp [hp, setCell_period]

/-- Applying any override list never changes the period column. -/
theorem apply_custom_params_period_map (edits : List Edit)
    (st : List ParamsRow × MNOverrides) :
    (apply_custom_params edits st).1.map (fun r => r.period) =
      st.1.map (fun r => r.period) := by
  induction edits generalizing st with
  | nil => rfl
  | cons e rest ih =>
    unfold apply_custom_params at ih ⊢
    rw [List.foldl_cons, ih, apply_one_period_map]

/-- When the parameter table builds successfully, its period column is
exactly `1, 2, ..., sim_time`, overrides included. -/
theorem create_params_df_ok_periods (sim_time n : ℕ) (ds : List String)
    (p1 p2 : List ℚ) (custom : List Edit) (rows : List ParamsRow)
    (ovr : MNOverrides)
    (h : create_params_df sim_time n ds p1 p2 custom = .ok (rows, ovr)) :
    rows.map (fun r => r.period) =
      (List.range sim_time).map (fun (i : ℕ) => (i : ℤ) + 1) := by
  rcases ds with _ | ⟨d1, _ | ⟨d2, _ | ⟨d3, _ | ⟨d4, dr⟩⟩⟩⟩ <;>
    rcases p1 with _ | ⟨a1, _ | ⟨a2, _ | ⟨a3, _ | ⟨a4, ar⟩⟩⟩⟩ <;>
      rcases p2 with _ | ⟨b1, _ | ⟨b2, _ | ⟨b3, _ | ⟨b4, br⟩⟩⟩⟩ <;>
        try exact Except.noConfusion h
  unfold create_params_df at h
  split_ifs at h with hc
  · injection h with h2
    injection h2 with hr ho
    subst hr
    rw [List.map_map]
    rfl
  · injection h with h2
    have hr : rows = (apply_custom_params custom
        ((List.range sim_time).map fun (i : ℕ) =>
          { period := (i : ℤ) + 1
            n_total_parts := n
            stage_one_dist := .str d1
            stage_one_dist_value_1 := a1
            stage_one_dist_value_2 := b1
            stage_two_dist := .str d2
            stage_two_dist_value_1 := a2
            stage_two_dist_value_2 := b2
            stage_three_dist := .str d3
            stage_three_dist_value_1 := a3
            stage_three_dist_value_2 := b3
            stage_four_dist := .str d4
            stage_four_dist_value_1 := a4
            stage_four_dist_value_2 := b4 }, [])).1 := by
      rw [h2]
    rw [hr, apply_custom_params_period_map]
    rw [List.map_map]
    rfl

/-- Full characterisation of the MICAP entry a successful period step
emits. -/
theorem simulate_period_ok_entry (mn : ℤ) (ovr : MNOverrides) (period : ℤ)
    (params : List ParamsRow) (st : ℕ) (sim_df active : List Record) (g : Rng)
    (entry : MicapEntry) (s2 a2 : List Record) (g2 : Rng)
    (h : simulate_period mn ovr period params st sim_df active g =
      (.ok (entry, s2, a2), g2)) :
    entry =
      { period := period
        active_stage_one := (sim_df.filter fun r =>
            fle r.stage_one_start (period : ℚ) && fgt r.stage_one_end (period : ℚ)
              && r.condemn == "no").length
        mission_need := (dictGet ovr period).getD (mn : ℚ)
        micap := max 0 ((dictGet ovr period).getD (mn : ℚ) -
          (sim_df.filter fun r =>
            fle r.stage_one_start (period : ℚ) && fgt r.stage_one_end (period : ℚ)
              && r.condemn == "no").length) } := by
  unfold simulate_period at h
  dsimp only at h
  rcases hg : genCycles
      (((active.filter fun r => feq r.stage_four_end (period : ℚ)).map
        fun r => r.part_id)) period st params sim_df g with ⟨res, g3⟩
  rw [hg] at h
  rcases res with e | rows
  · exact Except.noConfusion (congrArg Prod.fst h)
  · injection h with h1 h2
    injection h1 with h3
    injection h3 with h4 h5
    exact h4.symm

/-- Any successful period step appends to the lifecycle table and
recomputes the projection from the appended table. -/
theorem simulate_period_ok_tables (mn : ℤ) (ovr : MNOverrides) (period : ℤ)
    (params : List ParamsRow) (st : ℕ) (sim_df active : List Record) (g : Rng)
    (entry : MicapEntry) (s2 a2 : List Record) (g2 : Rng)
    (h : simulate_period mn ovr period params st sim_df active g =
      (.ok (entry, s2, a2), g2)) :
    ∃ new_rows,
      genCycles ((active.filter fun r => feq r.stage_four_end (period : ℚ)).map
          fun r => r.part_id) period st params sim_df g = (.ok new_rows, g2) ∧
      s2 = sim_df ++ new_rows ∧ a2 = create_active_parts_df s2 := by
  unfold simulate_period at h
  dsimp only at h
  rcases hg : genCycles
      (((active.filter fun r => feq r.stage_four_end (period : ℚ)).map
        fun r => r.part_id)) period st params sim_df g with ⟨res, g3⟩
  rw [hg] at h
  rcases res with e | rows
  · exact Except.noConfusion (congrArg Prod.fst h)
  · injection h with h1 hgg
    injection h1 with h3
    injection h3 with h4 h5
    injection h5 with h6 h7
    subst hgg h6
    exact ⟨rows, hg, h7.symm ▸ ⟨rfl, rfl⟩⟩

/-! ### Stream preservation

Every engine operation either leaves the pseudorandom state untouched or
advances its cursor; none replaces the stream itself.  This is the
formal content of "the stream is never reseeded mid-run". -/

/-- The sampler either raises with the state untouched or advances the
cursor by one; in both cases the stream function is preserved. -/
theorem sample_duration_stream (dist : CellVal) (v1 v2 : ℚ) (g : Rng) :
    (sample_duration dist v1 v2 g).2.stream = g.stream := by
  unfold sample_duration
  split_ifs <;> rfl

/-- Sampling a whole column preserves the stream function. -/
theorem sampleColumn_stream (dist : CellVal) (v1 v2 : ℚ) :
    ∀ (n : ℕ) (g : Rng), (sampleColumn dist v1 v2 n g).2.stream = g.stream := by
  intro n
  induction n with
  | zero => intro g; rfl
  | succ n ih =>
    intro g
    have h1 := sample_duration_stream dist v1 v2 g
    unfold sampleColumn
    rcases hs : sample_duration dist v1 v2 g with ⟨res, g2⟩
    rw [hs] at h1
    rcases res with e | d
    · exact h1
    · dsimp only
      have h2 := ih g2
      rcases hc : sampleColumn dist v1 v2 n g2 with ⟨res2, g3⟩
      rw [hc] at h2
      rcases res2 with e | ds <;> exact h2.trans h1

/-- Building the initial table preserves the stream function. -/
theorem create_initial_sim_df_stream (params : List ParamsRow) (n : ℕ)
    (g : Rng) : (create_initial_sim_df params n g).2.stream = g.stream := by
  unfold create_initial_sim_df
  rcases params.head? with _ | row0
  · rfl
  · dsimp only
    rcases h1 : sampleColumn row0.stage_one_dist row0.stage_one_dist_value_1
        row0.stage_one_dist_value_2 n g with ⟨r1, g1⟩
    have e1 := sampleColumn_stream row0.stage_one_dist row0.stage_one_dist_value_1
        row0.stage_one_dist_value_2 n g
    rw [h1] at e1
    rcases r1 with e | c1
    · exact e1
    · dsimp only
      rcases h2 : sampleColumn row0.stage_two_dist row0.stage_two_dist_value_1
          row0.stage_two_dist_value_2 n g1 with ⟨r2, g2⟩
      have e2 := sampleColumn_stream row0.stage_two_dist row0.stage_two_dist_value_1
          row0.stage_two_dist_value_2 n g1
      rw [h2] at e2
      rcases r2 with e | c2
      · exact e2.trans e1
      · dsimp only
        rcases h3 : sampleColumn row0.stage_three_dist row0.stage_three_dist_value_1
            row0.stage_three_dist_value_2 n g2 with ⟨r3, g3⟩
        have e3 := sampleColumn_stream row0.stage_three_dist
            row0.stage_three_dist_value_1 row0.stage_three_dist_value_2 n g2
        rw [h3] at e3
        rcases r3 with e | c3
        · exact (e3.trans e2).trans e1
        · dsimp only
          rcases h4 : sampleColumn row0.stage_four_dist row0.stage_four_dist_value_1
              row0.stage_four_dist_value_2 n g3 with ⟨r4, g4⟩
          have e4 := sampleColumn_stream row0.stage_four_dist
              row0.stage_four_dist_value_1 row0.stage_four_dist_value_2 n g3
          rw [h4] at e4
          rcases r4 with e | c4 <;> exact ((e4.trans e3).trans e2).trans e1

/-- Regenerating one lifecycle preserves the stream function. -/
theorem generate_new_cycle_stream (pid : ℕ) (period : ℤ) (st : ℕ)
    (params : List ParamsRow) (sim_df : List Record) (g : Rng) :
    (generate_new_cycle pid period st params sim_df g).2.stream = g.stream := by
  unfold generate_new_cycle
  split
  · rfl
  next part_row hpr =>
    split
    · rfl
    next pp hpp =>
      rcases h1 : sample_duration pp.stage_one_dist pp.stage_one_dist_value_1
          pp.stage_one_dist_value_2 g with ⟨r1, g1⟩
      have e1 := sample_duration_stream pp.stage_one_dist pp.stage_one_dist_value_1
          pp.stage_one_dist_value_2 g
      rw [h1] at e1
      rcases r1 with e | d1
      · exact e1
      · dsimp only
        rcases h2 : sample_duration pp.stage_two_dist pp.stage_two_dist_value_1
            pp.stage_two_dist_value_2 g1 with ⟨r2, g2⟩
        have e2 := sample_duration_stream pp.stage_two_dist pp.stage_two_dist_value_1
            pp.stage_two_dist_value_2 g1
        rw [h2] at e2
        rcases r2 with e | d2
        · exact e2.trans e1
        · dsimp only
          rcases h3 : sample_duration pp.stage_three_dist pp.stage_three_dist_value_1
              pp.stage_three_dist_value_2 g2 with ⟨r3, g3⟩
          have e3 := sample_duration_stream pp.stage_three_dist
              pp.stage_three_dist_value_1 pp.stage_three_dist_value_2 g2
          rw [h3] at e3
          rcases r3 with e | d3
          · exact (e3.trans e2).trans e1
          · dsimp only
            rcases h4 : sample_duration pp.stage_four_dist pp.stage_four_dist_value_1
                pp.stage_four_dist_value_2 g3 with ⟨r4, g4⟩
            have e4 := sample_duration_stream pp.stage_four_dist
                pp.stage_four_dist_value_1 pp.stage_four_dist_value_2 g3
            rw [h4] at e4
            rcases r4 with e | d4 <;> exact ((e4.trans e3).trans e2).trans e1

/-- Regenerating a batch of lifecycles preserves the stream function. -/
theorem genCycles_stream (ids : List ℕ) (period : ℤ) (st : ℕ)
    (params : List ParamsRow) (sim_df : List Record) :
    ∀ g : Rng, (genCycles ids period st params sim_df g).2.stream = g.stream := by
  induction ids with
  | nil => intro g; rfl
  | cons i rest ih =>
    intro g
    unfold genCycles
    rcases h1 : generate_new_cycle i period st params sim_df g with ⟨r1, g1⟩
    have e1 := generate_new_cycle_stream i period st params sim_df g
    rw [h1] at e1
    rcases r1 with e | row
    · exact e1
    · dsimp only
      have e2 := ih g1
      rcases h2 : genCycles rest period st params sim_df g1 with ⟨r2, g2⟩
      rw [h2] at e2
      rcases r2 with e | rows <;> exact e2.trans e1

/-- A period step preserves the stream function. -/
theorem simulate_period_stream (mn : ℤ) (ovr : MNOverrides) (period : ℤ)
    (params : List ParamsRow) (st : ℕ) (sim_df active : List Record) (g : Rng) :
    (simulate_period mn ovr period params st sim_df active g).2.stream =
      g.stream := by
  unfold simulate_period
  dsimp only
  rcases hg : genCycles
      (((active.filter fun r => feq r.stage_four_end (period : ℚ)).map
        fun r => r.part_id)) period st params sim_df g with ⟨res, g3⟩
  have e1 := genCycles_stream
      ((active.filter fun r => feq r.stage_four_end (period : ℚ)).map
        fun r => r.part_id) period st params sim_df g
  rw [hg] at e1
  try rw [hg]
  rcases res with e | rows <;> exact e1

/-- The main loop preserves the stream function. -/
theorem sim_loop_stream (mn : ℤ) (ovr : MNOverrides) (params : List ParamsRow)
    (st : ℕ) :
    ∀ (ps : List ℤ) (sim_df active : List Record) (log : List MicapEntry)
      (g : Rng),
      (sim_loop mn ovr params st ps sim_df active log g).2.stream = g.stream := by
  intro ps
  induction ps with
  | nil => intro sim_df active log g; rfl
  | cons p rest ih =>
    intro sim_df active log g
    unfold sim_loop
    rcases h1 : simulate_period mn ovr p params st sim_df active g with ⟨r1, g1⟩
    have e1 := simulate_period_stream mn ovr p params st sim_df active g
    rw [h1] at e1
    rcases r1 with e | ⟨entry, s2, a2⟩
    · exact e1
    · dsimp only
      exact (ih s2 a2 (log ++ [entry]) g1).trans e1

/-- A whole run preserves the stream function: the engine never reseeds
the pseudorandom stream. -/
theorem run_simulation_stream (st tp : ℕ) (mn : ℤ) (ds : List String)
    (p1 p2 : List ℚ) (cp : List Edit) (g : Rng) :
    (run_simulation st tp mn ds p1 p2 cp g).2.stream = g.stream := by
  unfold run_simulation
  rcases create_params_df st tp ds p1 p2 cp with e | ⟨params, ovr⟩
  · rfl
  · dsimp only
    rcases h1 : create_initial_sim_df params tp g with ⟨r1, g1⟩
    have e1 := create_initial_sim_df_stream params tp g
    rw [h1] at e1
    rcases r1 with e | sim_df
    · exact e1
    · dsimp only
      exact (sim_loop_stream mn ovr params st (params.map fun r => r.period)
        sim_df (create_active_parts_df sim_df) [] g1).trans e1

/-- The two orders of the stage-one activity test select the same
records. -/
theorem count_filter_comm (sim_df : List Record) (p : ℚ) :
    (sim_df.filter fun r =>
      fle r.stage_one_start p && fgt r.stage_one_end p && r.condemn == "no") =
    (sim_df.filter fun r =>
      r.condemn == "no" && fle r.stage_one_start p && fgt r.stage_one_end p) := by
  apply List.filter_congr
  intro r _
  cases fle r.stage_one_start p <;> cases fgt r.stage_one_end p <;>
    cases r.condemn == "no" <;> rfl

/-- A complete stage configuration always builds a parameter table. -/
theorem create_params_df_ok_exists (sim_time n : ℕ) (ds : List String)
    (p1 p2 : List ℚ) (custom : List Edit) (h1 : 4 ≤ ds.length)
    (h2 : 4 ≤ p1.length) (h3 : 4 ≤ p2.length) :
    ∃ rows ovr, create_params_df sim_time n ds p1 p2 custom = .ok (rows, ovr) := by
  rcases ds with _ | ⟨d1, _ | ⟨d2, _ | ⟨d3, _ | ⟨d4, dr⟩⟩⟩⟩ <;>
    try (exfalso; simp only [List.length_nil, List.length_cons] at h1; omega)
  rcases p1 with _ | ⟨a1, _ | ⟨a2, _ | ⟨a3, _ | ⟨a4, ar⟩⟩⟩⟩ <;>
    try (exfalso; simp only [List.length_nil, List.length_cons] at h2; omega)
  rcases p2 with _ | ⟨b1, _ | ⟨b2, _ | ⟨b3, _ | ⟨b4, br⟩⟩⟩⟩ <;>
    try (exfalso; simp only [List.length_nil, List.length_cons] at h3; omega)
  unfold create_params_df
  split_ifs <;> exact ⟨_, _, rfl⟩

/-- What the main loop appends to the MICAP log: one entry per processed
period, in order, each with a non-negative shortfall. -/
theorem sim_loop_log (mn : ℤ) (ovr : MNOverrides) (params : List ParamsRow)
    (st : ℕ) :
    ∀ (ps : List ℤ) (sim_df active : List Record) (log0 : List MicapEntry)
      (g : Rng) (out : List Record) (log : List MicapEntry) (g2 : Rng),
      sim_loop mn ovr params st ps sim_df active log0 g = (.ok (out, log), g2) →
      log.map (fun e => e.period) = log0.map (fun e => e.period) ++ ps ∧
      ∀ e ∈ log, e ∈ log0 ∨ 0 ≤ e.micap := by
  intro ps
  induction ps with
  | nil =>
    intro sim_df active log0 g out log g2 h
    unfold sim_loop at h
    injection h with h1 h2
    injection h1 with h3
    injection h3 with h4 h5
    subst h5
    exact ⟨by simp, fun e he => Or.inl he⟩
  | cons p rest ih =>
    intro sim_df active log0 g out log g2 h
    unfold sim_loop at h
    rcases hs : simulate_period mn ovr p params st sim_df active g with ⟨r1, g1⟩
    rw [hs] at h
    rcases r1 with e | ⟨entry, s2, a2⟩
    · exact Except.noConfusion (congrArg Prod.fst h)
    · have hent := simulate_period_ok_entry mn ovr p params st sim_df active g
        entry s2 a2 g1 hs
      have hrec := ih s2 a2 (log0 ++ [entry]) g1 out log g2 h
      constructor
      · rw [hrec.1]
        simp [hent]
      · intro e he
        rcases hrec.2 e he with hmem | hpos
        · rcases List.mem_append.mp hmem with h0 | h1
          · exact Or.inl h0
          · right
            have : e = entry := by simpa using h1
            subst this
            rw [hent]
            exact le_max_left 0 _
        · exact Or.inr hpos

/-- The reseed statement at the end of the sampler body never executes:
every branch of the preceding conditional returns or raises. -/
theorem runBody_reseed_dead (dist : CellVal) (v1 v2 : ℚ) (g : Rng) :
    (runBody dist v1 v2 g sampleBody).2 = false := by
  by_cases h1 : dist = .str "normal"
  · simp [runBody, sampleBody, execStmt, h1]
  · by_cases h2 : dist = .str "weibull" <;>
      simp [runBody, sampleBody, execStmt, h1, h2]

/-- The statement-level model of the sampler body agrees with the plain
embedding `sample_duration` on every input. -/
theorem runBody_eq_sample_duration (dist : CellVal) (v1 v2 : ℚ) (g : Rng) :
    (runBody dist v1 v2 g sampleBody).1 =
      (match sample_duration dist v1 v2 g with
       | (.error m, g2) => BodyResult.exc m g2
       | (.ok v, g2) => BodyResult.ret v g2) := by
  by_cases h1 : dist = .str "normal"
  · simp [runBody, sampleBody, execStmt, sample_duration, h1]
  · by_cases h2 : dist = .str "weibull" <;>
      simp [runBody, sampleBody, execStmt, sample_duration, h1, h2]

/-! ## Claim theorems -/

/-- A fixed concrete pseudorandom state used by the concrete witnesses. -/
def zeroRng : Rng := ⟨fun _ => 0, 0⟩

/-- C1: every successful period step emits a MICAP entry whose active
count is the number of non-condemned lifecycle records with stage-1
start `<= p <` stage-1 end, and whose micap is
`max(0, effective_need - active_count)`; and in every successful run the
log carries one entry per period `1..sim_time`, each with a
non-negative micap, for every configuration and random stream. -/
theorem micap_entry_c1 :
    (∀ (mn : ℤ) (ovr : MNOverrides) (period : ℤ) (params : List ParamsRow)
       (st : ℕ) (sim_df active : List Record) (g : Rng) (entry : MicapEntry)
       (s2 a2 : List Record) (g2 : Rng),
       simulate_period mn ovr period params st sim_df active g =
         (.ok (entry, s2, a2), g2) →
       entry.period = period ∧
       entry.mission_need = (dictGet ovr period).getD (mn : ℚ) ∧
       entry.active_stage_one = (sim_df.filter fun r =>
           r.condemn == "no" && fle r.stage_one_start (period : ℚ) &&
             fgt r.stage_one_end (period : ℚ)).length ∧
       entry.micap = max 0 (entry.mission_need - entry.active_stage_one) ∧
       0 ≤ entry.micap) ∧
    (∀ (st tp : ℕ) (mn : ℤ) (ds : List String) (p1 p2 : List ℚ) (cp : List Edit)
       (g : Rng) (out : List Record) (log : List MicapEntry) (g2 : Rng),
       run_simulation st tp mn ds p1 p2 cp g = (.ok (out, log), g2) →
       log.map (fun e => e.period) =
         (List.range st).map (fun (i : ℕ) => (i : ℤ) + 1) ∧
       ∀ e ∈ log, 0 ≤ e.micap) := by
  constructor
  · intro mn ovr period params st sim_df active g entry s2 a2 g2 h
    have he := simulate_period_ok_entry mn ovr period params st sim_df active g
      entry s2 a2 g2 h
    rw [← count_filter_comm]
    rw [he]
    refine ⟨rfl, rfl, rfl, rfl, le_max_left 0 _⟩
  · intro st tp mn ds p1 p2 cp g out log g2 h
    unfold run_simulation at h
    rcases hcp : create_params_df st tp ds p1 p2 cp with e | ⟨params, ovr⟩ <;>
      rw [hcp] at h
    · exact Except.noConfusion (congrArg Prod.fst h)
    · dsimp only at h
      rcases hin : create_initial_sim_df params tp g with ⟨r1, g1⟩
      rw [hin] at h
      rcases r1 with e | sim_df
      · exact Except.noConfusion (congrArg Prod.fst h)
      · dsimp only at h
        unfold process_simulation at h
        have hl := sim_loop_log mn ovr params st (params.map fun r => r.period)
          sim_df (create_active_parts_df sim_df) [] g1 out log g2 h
        constructor
        · rw [hl.1]
          simp only [List.map_nil, List.nil_append]
          exact create_params_df_ok_periods st tp ds p1 p2 cp params ovr hcp
        · intro e he
          rcases hl.2 e he with h0 | h1
          · exact absurd h0 (List.not_mem_nil e)
          · exact h1

/-- C1 witness: the concrete conclusions at a one-period, zero-parts
configuration. -/
theorem micap_entry_c1_witness :
    ((⟨1, 0, 1, 1⟩ : MicapEntry).period = 1 ∧
     (⟨1, 0, 1, 1⟩ : MicapEntry).mission_need =
       (dictGet [] 1).getD ((1 : ℤ) : ℚ) ∧
     (⟨1, 0, 1, 1⟩ : MicapEntry).active_stage_one =
       (([] : List Record).filter fun r =>
         r.condemn == "no" && fle r.stage_one_start ((1 : ℤ) : ℚ) &&
           fgt r.stage_one_end ((1 : ℤ) : ℚ)).length ∧
     (⟨1, 0, 1, 1⟩ : MicapEntry).micap =
       max 0 ((⟨1, 0, 1, 1⟩ : MicapEntry).mission_need -
         (⟨1, 0, 1, 1⟩ : MicapEntry).active_stage_one) ∧
     (0 : ℚ) ≤ (⟨1, 0, 1, 1⟩ : MicapEntry).micap) ∧
    (([⟨1, 0, 0, 0⟩] : List MicapEntry).map (fun e => e.period) =
       (List.range 1).map (fun (i : ℕ) => (i : ℤ) + 1) ∧
     ∀ e ∈ ([⟨1, 0, 0, 0⟩] : List MicapEntry), 0 ≤ e.micap) :=
  ⟨micap_entry_c1.1 1 [] 1 [] 0 [] [] zeroRng ⟨1, 0, 1, 1⟩ [] [] zeroRng
     (by simp [simulate_period, genCycles, create_active_parts_df, keepLast,
       dictGet, zeroRng]),
   micap_entry_c1.2 1 0 0 ["normal", "normal", "normal", "normal"]
     [1, 1, 1, 1] [0, 0, 0, 0] [] zeroRng [] [⟨1, 0, 0, 0⟩] zeroRng
     (by simp [run_simulation, create_params_df, create_initial_sim_df,
       sampleColumn, buildInitRecords, process_simulation, sim_loop,
       simulate_period, genCycles, create_active_parts_df, keepLast, dictGet,
       zeroRng, (show List.range 1 = [0] from rfl)])⟩

/-- C5: for every distribution cell other than the strings "normal" and
"weibull", the sampler raises an error naming the distribution and
leaves the pseudorandom state exactly as it was: no draw is consumed. -/
theorem sample_unsupported_c5 (dist : CellVal) (v1 v2 : ℚ) (g : Rng)
    (h1 : dist ≠ .str "normal") (h2 : dist ≠ .str "weibull") :
    sample_duration dist v1 v2 g = (.error (unsupportedMsg dist), g) := by
  unfold sample_duration
  rw [if_neg h1, if_neg h2]

/-- C5 witness: the "gamma" distribution is rejected with the state
untouched. -/
theorem sample_unsupported_c5_witness :
    sample_duration (.str "gamma") 2 3 zeroRng =
      (.error (unsupportedMsg (.str "gamma")), zeroRng) :=
  sample_unsupported_c5 (.str "gamma") 2 3 zeroRng (by decide) (by decide)

/-- C6: with a complete stage configuration, the parameter table has
exactly `sim_time` rows whose period column is exactly `1..sim_time`
with no gaps or duplicates, whatever override list is applied. -/
theorem params_shape_c6 (sim_time n : ℕ) (ds : List String) (p1 p2 : List ℚ)
    (custom : List Edit) (_h0 : 1 ≤ sim_time) (h1 : 4 ≤ ds.length)
    (h2 : 4 ≤ p1.length) (h3 : 4 ≤ p2.length) :
    ∃ rows ovr, create_params_df sim_time n ds p1 p2 custom = .ok (rows, ovr) ∧
      rows.length = sim_time ∧
      rows.map (fun r => r.period) =
        (List.range sim_time).map (fun (i : ℕ) => (i : ℤ) + 1) := by
  obtain ⟨rows, ovr, hok⟩ :=
    create_params_df_ok_exists sim_time n ds p1 p2 custom h1 h2 h3
  have hper := create_params_df_ok_periods sim_time n ds p1 p2 custom rows ovr hok
  refine ⟨rows, ovr, hok, ?_, hper⟩
  have := congrArg List.length hper
  rwa [List.length_map, List.length_map, List.length_range] at this

/-- C6 witness: a two-period table with an override applied. -/
theorem params_shape_c6_witness :
    ∃ rows ovr,
      create_params_df 2 1 ["normal", "weibull", "normal", "weibull"]
        [1, 2, 3, 4] [5, 6, 7, 8] [⟨1, "Stage One Param 1", 9⟩] =
        .ok (rows, ovr) ∧
      rows.length = 2 ∧
      rows.map (fun r => r.period) = (List.range 2).map (fun (i : ℕ) => (i : ℤ) + 1) :=
  params_shape_c6 2 1 ["normal", "weibull", "normal", "weibull"]
    [1, 2, 3, 4] [5, 6, 7, 8] [⟨1, "Stage One Param 1", 9⟩]
    (by decide) (by decide) (by decide) (by decide)

/-- C8: runs from equal arguments and equal pseudorandom states are
identical; the reseed statement inside the sampler body never executes
(its statement-level model returns the same outcome as the plain
sampler and its reseed flag is always false); and a whole run preserves
the stream function, so the engine never reseeds mid-run. -/
theorem determinism_no_reseed_c8 :
    (∀ (st tp : ℕ) (mn : ℤ) (ds : List String) (p1 p2 : List ℚ)
       (cp : List Edit) (g g2 : Rng), g = g2 →
       run_simulation st tp mn ds p1 p2 cp g =
         run_simulation st tp mn ds p1 p2 cp g2) ∧
    (∀ (dist : CellVal) (v1 v2 : ℚ) (g : Rng),
       (runBody dist v1 v2 g sampleBody).2 = false) ∧
    (∀ (dist : CellVal) (v1 v2 : ℚ) (g : Rng),
       (runBody dist v1 v2 g sampleBody).1 =
         (match sample_duration dist v1 v2 g with
          | (.error m, g2) => BodyResult.exc m g2
          | (.ok v, g2) => BodyResult.ret v g2)) ∧
    (∀ (st tp : ℕ) (mn : ℤ) (ds : List String) (p1 p2 : List ℚ)
       (cp : List Edit) (g : Rng),
       ((run_simulation st tp mn ds p1 p2 cp g).2).stream = g.stream) :=
  ⟨fun _ _ _ _ _ _ _ _ _ h => by rw [h],
   runBody_reseed_dead,
   runBody_eq_sample_duration,
   run_simulation_stream⟩

/-- C8 witness: the conclusions at one concrete configuration and
state. -/
theorem determinism_no_reseed_c8_witness :
    run_simulation 2 1 1 ["normal", "normal", "normal", "normal"]
        [1, 1, 1, 1] [0, 0, 0, 0] [] zeroRng =
      run_simulation 2 1 1 ["normal", "normal", "normal", "normal"]
        [1, 1, 1, 1] [0, 0, 0, 0] [] zeroRng ∧
    (runBody (.str "gamma") 1 2 zeroRng sampleBody).2 = false ∧
    ((run_simulation 2 1 1 ["normal", "normal", "normal", "normal"]
        [1, 1, 1, 1] [0, 0, 0, 0] [] zeroRng).2).stream = zeroRng.stream :=
  ⟨determinism_no_reseed_c8.1 2 1 1 ["normal", "normal", "normal", "normal"]
      [1, 1, 1, 1] [0, 0, 0, 0] [] zeroRng zeroRng rfl,
   determinism_no_reseed_c8.2.1 (.str "gamma") 1 2 zeroRng,
   determinism_no_reseed_c8.2.2.2 2 1 1 ["normal", "normal", "normal", "normal"]
     [1, 1, 1, 1] [0, 0, 0, 0] [] zeroRng⟩

/-- C9: an override whose stage label is neither "Mission Need" nor one
of the twelve mapped labels changes neither the table nor the
mission-need mapping (and raises nothing: the application function is
total), and the remaining directives are applied exactly as if the
unknown one were absent. -/
theorem unknown_label_c9 (e : Edit) (l1 l2 : List Edit)
    (st : List ParamsRow × MNOverrides)
    (h1 : e.stage ≠ "Mission Need") (h2 : STAGE_LABEL_MAP e.stage = none) :
    apply_one st e = st ∧
      apply_custom_params (l1 ++ e :: l2) st = apply_custom_params (l1 ++ l2) st := by
  have hone : ∀ st2 : List ParamsRow × MNOverrides, apply_one st2 e = st2 := by
    intro st2
    unfold apply_one
    rw [if_neg h1, h2]
  refine ⟨hone st, ?_⟩
  unfold apply_custom_params
  rw [List.foldl_append, List.foldl_append, List.foldl_cons, hone]

/-- C9 witness: a misspelled label between two good directives. -/
theorem unknown_label_c9_witness :
    apply_one (([], []) : List ParamsRow × MNOverrides)
        ⟨2, "Stage Five Param 1", 3⟩ = (([], []) : List ParamsRow × MNOverrides) ∧
      apply_custom_params
        ([⟨1, "Mission Need", 5⟩] ++ ⟨2, "Stage Five Param 1", 3⟩ ::
          [⟨1, "Stage One Param 2", 7⟩]) (([], []) : List ParamsRow × MNOverrides) =
      apply_custom_params ([⟨1, "Mission Need", 5⟩] ++ [⟨1, "Stage One Param 2", 7⟩])
        (([], []) : List ParamsRow × MNOverrides) :=
  unknown_label_c9 ⟨2, "Stage Five Param 1", 3⟩ [⟨1, "Mission Need", 5⟩]
    [⟨1, "Stage One Param 2", 7⟩] ([], []) (by decide) (by decide)

/-- C10: a stage-configuration list with fewer than four elements makes
the run fail during parameter-table construction with the index error,
and the pseudorandom state is returned untouched: no duration was ever
sampled. -/
theorem short_config_c10 (st tp : ℕ) (mn : ℤ) (ds : List String)
    (p1 p2 : List ℚ) (cp : List Edit) (g : Rng)
    (h : ds.length < 4 ∨ p1.length < 4 ∨ p2.length < 4) :
    create_params_df st tp ds p1 p2 cp =
      .error "IndexError: list index out of range" ∧
    run_simulation st tp mn ds p1 p2 cp g =
      (.error "IndexError: list index out of range", g) := by
  have hc : create_params_df st tp ds p1 p2 cp =
      .error "IndexError: list index out of range" := by
    rcases ds with _ | ⟨d1, _ | ⟨d2, _ | ⟨d3, _ | ⟨d4, dr⟩⟩⟩⟩ <;>
      rcases p1 with _ | ⟨a1, _ | ⟨a2, _ | ⟨a3, _ | ⟨a4, ar⟩⟩⟩⟩ <;>
        rcases p2 with _ | ⟨b1, _ | ⟨b2, _ | ⟨b3, _ | ⟨b4, br⟩⟩⟩⟩ <;>
          first
            | rfl
            | (exfalso
               simp only [List.length_nil, List.length_cons] at h
               omega)
  refine ⟨hc, ?_⟩
  unfold run_simulation
  rw [hc]

/-- C10 witness: a single-element distribution list fails untouched. -/
theorem short_config_c10_witness :
    create_params_df 3 2 ["normal"] [1, 1, 1, 1] [0, 0, 0, 0] [] =
      .error "IndexError: list index out of range" ∧
    run_simulation 3 2 1 ["normal"] [1, 1, 1, 1] [0, 0, 0, 0] [] zeroRng =
      (.error "IndexError: list index out of range", zeroRng) :=
  short_config_c10 3 2 1 ["normal"] [1, 1, 1, 1] [0, 0, 0, 0] [] zeroRng
    (by decide)

/-! ## The projection lemmas (claim C7) -/

/-- The sort key order is reflexive. -/
theorem fkeyLe_refl (a : PFloat) : fkeyLe a a = true := by
  rcases a with _ | x <;> simp [fkeyLe]

/-- The sort key order is total. -/
theorem fkeyLe_total (a b : PFloat) : fkeyLe a b = true ∨ fkeyLe b a = true := by
  rcases a with _ | x <;> rcases b with _ | y
  · left; rfl
  · right; rfl
  · left; rfl
  · simp only [fkeyLe, decide_eq_true_eq]
    exact le_total x y

/-- The sort key order is transitive. -/
theorem fkeyLe_trans (a b c : PFloat) (h1 : fkeyLe a b = true)
    (h2 : fkeyLe b c = true) : fkeyLe a c = true := by
  rcases a with _ | x <;> rcases b with _ | y <;> rcases c with _ | z <;>
    simp_all [fkeyLe]
  exact le_trans h1 h2

instance : IsTotal Record RecLE := ⟨by
  intro a b
  unfold RecLE pandasLe
  rcases Nat.lt_trichotomy a.part_id b.part_id with h | h | h
  · left; simp [h]
  · rcases fkeyLe_total a.stage_four_end b.stage_four_end with hk | hk
    · left; simp [h, hk]
    · right; simp [h.symm, hk]
  · right; simp [h]⟩

instance : IsTrans Record RecLE := ⟨by
  intro a b c hab hbc
  unfold RecLE pandasLe at *
  simp only [Bool.or_eq_true, Bool.and_eq_true, decide_eq_true_eq] at *
  rcases hab with h1 | ⟨h1, k1⟩ <;> rcases hbc with h2 | ⟨h2, k2⟩
  · exact Or.inl (by omega)
  · exact Or.inl (by omega)
  · exact Or.inl (by omega)
  · exact Or.inr ⟨by omega, fkeyLe_trans _ _ _ k1 k2⟩⟩

/-- Everything the keep-last pass retains was in the input. -/
theorem keepLast_subset : ∀ l : List Record, ∀ r ∈ keepLast l, r ∈ l := by
  intro l
  induction l with
  | nil => intro r h; exact absurd h (List.not_mem_nil r)
  | cons a t ih =>
    intro r h
    unfold keepLast at h
    split_ifs at h with hc
    · exact List.mem_cons_of_mem a (ih r h)
    · rcases List.mem_cons.mp h with h1 | h1
      · subst h1; exact List.mem_cons_self _ _
      · exact List.mem_cons_of_mem a (ih r h1)

/-- The keep-last pass retains at most one record per part id. -/
theorem keepLast_pairwise : ∀ l : List Record,
    (keepLast l).Pairwise (fun a b => a.part_id ≠ b.part_id) := by
  intro l
  induction l with
  | nil => exact List.Pairwise.nil
  | cons a t ih =>
    unfold keepLast
    split_ifs with hc
    · exact ih
    · refine List.Pairwise.cons ?_ ih
      intro b hb he
      exact hc (List.any_eq_true.mpr
        ⟨b, keepLast_subset t b hb, by simp [he]⟩)

/-- On a sorted list, the keep-last pass retains, for each part, a
record whose stage-4 end key dominates every record of that part. -/
theorem keepLast_max : ∀ l : List Record, l.Sorted RecLE →
    ∀ r ∈ keepLast l, ∀ s ∈ l, s.part_id = r.part_id →
      fkeyLe s.stage_four_end r.stage_four_end = true := by
  intro l
  induction l with
  | nil => intro _ r hr; exact absurd hr (List.not_mem_nil r)
  | cons a t ih =>
    intro hs r hr s hsl hsp
    have hst : t.Sorted RecLE := hs.of_cons
    have hdecode : ∀ x, x ∈ t → a.part_id = r.part_id → r = x →
        fkeyLe a.stage_four_end r.stage_four_end = true := by
      intro x hxt hap hrx
      have hle : RecLE a x := (List.sorted_cons.mp hs).1 x hxt
      unfold RecLE pandasLe at hle
      simp only [Bool.or_eq_true, Bool.and_eq_true, decide_eq_true_eq] at hle
      subst hrx
      rcases hle with h | ⟨_, hk⟩
      · omega
      · exact hk
    unfold keepLast at hr
    split_ifs at hr with hc
    · rcases List.mem_cons.mp hsl with h1 | h1
      · subst h1
        exact hdecode r (keepLast_subset t r hr) hsp rfl
      · exact ih hst r hr s h1 hsp
    · rcases List.mem_cons.mp hr with h2 | h2
      · subst h2
        rcases List.mem_cons.mp hsl with h1 | h1
        · rw [h1]; exact fkeyLe_refl _
        · exact absurd (List.any_eq_true.mpr ⟨s, h1, by simp [hsp]⟩) hc
      · rcases List.mem_cons.mp hsl with h1 | h1
        · subst h1
          exact hdecode r (keepLast_subset t r h2) hsp rfl
        · exact ih hst r h2 s h1 hsp

/-- Every record the projection returns is the rounded copy of a
non-condemned record of the table whose stage-4 end key dominates every
non-condemned record of the same part. -/
theorem active_proj_spec (sim_df : List Record) :
    ∀ r ∈ create_active_parts_df sim_df,
      ∃ b, b ∈ sim_df ∧ b.condemn = "no" ∧ r = roundRec b ∧
        b.part_id = r.part_id ∧
        ∀ s ∈ sim_df, s.condemn = "no" → s.part_id = b.part_id →
          fkeyLe s.stage_four_end b.stage_four_end = true := by
  intro r hr
  unfold create_active_parts_df at hr
  rcases List.mem_map.mp hr with ⟨b, hb, hrb⟩
  have hsorted := List.sorted_insertionSort RecLE
    (sim_df.filter fun r => r.condemn == "no")
  have hbmem : b ∈ List.insertionSort RecLE
      (sim_df.filter fun r => r.condemn == "no") := keepLast_subset _ b hb
  have hbfil : b ∈ sim_df.filter (fun r => r.condemn == "no") :=
    (List.mem_insertionSort RecLE).mp hbmem
  have hbsim : b ∈ sim_df := List.mem_of_mem_filter hbfil
  have hbno : b.condemn = "no" := by
    have := List.of_mem_filter hbfil
    simpa using this
  refine ⟨b, hbsim, hbno, hrb.symm, by rw [← hrb]; rfl, ?_⟩
  intro s hssim hsno hsp
  have hsfil : s ∈ sim_df.filter (fun r => r.condemn == "no") :=
    List.mem_filter.mpr ⟨hssim, by simp [hsno]⟩
  have hssort : s ∈ List.insertionSort RecLE
      (sim_df.filter fun r => r.condemn == "no") :=
    (List.mem_insertionSort RecLE).mpr hsfil
  exact keepLast_max _ hsorted b hb s hssort hsp

/-- A pairwise part-distinct list has at most one record per part id. -/
theorem pairwise_count (l : List Record)
    (h : l.Pairwise fun a b => a.part_id ≠ b.part_id) (i : ℕ) :
    (l.filter fun r => r.part_id == i).length ≤ 1 := by
  induction l with
  | nil => simp
  | cons a t ih =>
    rcases List.pairwise_cons.mp h with ⟨ha, ht⟩
    by_cases hc : a.part_id = i
    · rw [List.filter_cons_of_pos (by simp [hc])]
      have hnil : (t.filter fun r => r.part_id == i) = [] := by
        rw [List.filter_eq_nil_iff]
        intro s hsmem
        simp only [beq_iff_eq]
        intro hsi
        exact ha s hsmem (hc.trans hsi.symm)
      rw [hnil]
      simp
    · rw [List.filter_cons_of_neg (by simp [hc])]
      exact ih ht

/-- C7: every active-parts projection has at most one record per part
id, contains no condemned record, and for each part retains (the
rounded copy of) a record whose stage-4 end instant dominates every
non-condemned record of that part in the sort-key order, in which an
undefined (NaN) end instant counts as latest (pandas sorts NaN last,
and an open cycle is the part's latest). -/
theorem active_projection_c7 (sim_df : List Record) :
    (∀ i : ℕ,
      ((create_active_parts_df sim_df).filter fun r => r.part_id == i).length ≤ 1) ∧
    (∀ r ∈ create_active_parts_df sim_df, r.condemn = "no") ∧
    (∀ r ∈ create_active_parts_df sim_df,
      ∃ b ∈ sim_df, b.condemn = "no" ∧ r = roundRec b ∧
        ∀ s ∈ sim_df, s.condemn = "no" → s.part_id = r.part_id →
          fkeyLe s.stage_four_end b.stage_four_end = true) := by
  have hpw : (create_active_parts_df sim_df).Pairwise
      (fun a b => a.part_id ≠ b.part_id) := by
    unfold create_active_parts_df
    exact (keepLast_pairwise _).map roundRec (fun a b hab => hab)
  refine ⟨fun i => pairwise_count _ hpw i, ?_, ?_⟩
  · intro r hr
    obtain ⟨b, _, hbno, hrb, _, _⟩ := active_proj_spec sim_df r hr
    rw [hrb]
    exact hbno
  · intro r hr
    obtain ⟨b, hbsim, hbno, hrb, hbp, hmax⟩ := active_proj_spec sim_df r hr
    exact ⟨b, hbsim, hbno, hrb, fun s hs hno hsp => hmax s hs hno (hsp.trans hbp.symm)⟩

/-- A three-record table exercising the projection: two cycles of part
one and a condemned part two. -/
def c7A : Record :=
  { period := none, part_id := 1, cycle := 1, condemn := "no"
    stage_one_duration := 1, stage_two_duration := 1
    stage_three_duration := 1, stage_four_duration := 1
    stage_one_start := some 1, stage_one_end := some 2
    stage_two_start := some 2, stage_two_end := some 3
    stage_three_start := some 3, stage_three_end := some 4
    stage_four_start := some 4, stage_four_end := some 5 }

/-- Second cycle of part one, later stage-4 end. -/
def c7B : Record :=
  { c7A with period := some 5, cycle := 2
             stage_one_start := some 5, stage_one_end := some 6
             stage_two_start := some 6, stage_two_end := some 7
             stage_three_start := some 7, stage_three_end := some 8
             stage_four_start := some 8, stage_four_end := some 9 }

/-- A condemned record for part two. -/
def c7C : Record := { c7A with part_id := 2, condemn := "yes" }

/-- The projection of the concrete table keeps exactly the rounded
latest cycle of part one. -/
theorem c7_proj_eval :
    create_active_parts_df [c7A, c7B, c7C] = [roundRec c7B] := by
  simp [create_active_parts_df, List.insertionSort, List.orderedInsert,
    RecLE, pandasLe, fkeyLe, keepLast, c7A, c7B, c7C, roundRec, fround]

/-- C7 witness: on the concrete table the projection keeps at most one
record of part one, and the record it retains is not condemned. -/
theorem active_projection_c7_witness :
    ((create_active_parts_df [c7A, c7B, c7C]).filter
      fun r => r.part_id == 1).length ≤ 1 ∧
    (roundRec c7B).condemn = "no" :=
  ⟨(active_projection_c7 [c7A, c7B, c7C]).1 1,
   (active_projection_c7 [c7A, c7B, c7C]).2.1 (roundRec c7B)
     (by rw [c7_proj_eval]; exact List.mem_singleton.mpr rfl)⟩

/-! ## Regeneration of a completed cycle (claim C2) -/

/-- A successful last-element lookup yields a member. -/
theorem getLast?_mem_of_eq {α : Type} {l : List α} {a : α}
    (h : l.getLast? = some a) : a ∈ l := by
  obtain ⟨hne, he⟩ := List.mem_getLast?_eq_getLast
    (show a ∈ l.getLast? from Option.mem_def.mpr h)
  rw [he]
  exact List.getLast_mem hne

/-- C2: when a part's active (projected, rounded) record ends exactly at
the current period, the regenerated record increments the cycle number,
carries the condemned flag over, starts stage one at the predecessor's
stage-4 end, draws its four durations in order from the parameter row of
the current period, and records its stage-4 end as missing exactly when
stage-3 end plus the stage-4 duration exceeds the horizon.  The
predecessor is the part's last record in the table (`iloc[-1]`), which
agrees with the active record's cycle on every reachable table (all
records non-condemned). -/
theorem regen_cycle_c2 (sim_df : List Record) (params : List ParamsRow)
    (period : ℤ) (st : ℕ) (g g2 : Rng) (i : ℕ) (a prev rec : Record)
    (hno : ∀ r ∈ sim_df, r.condemn = "no")
    (ha : a ∈ create_active_parts_df sim_df)
    (hai : a.part_id = i)
    (hae : a.stage_four_end = some ((period : ℤ) : ℚ))
    (hprev : (sim_df.filter fun r => r.part_id == i).getLast? = some prev)
    (hok : generate_new_cycle i period st params sim_df g = (.ok rec, g2)) :
    rec.cycle = prev.cycle + 1 ∧
    rec.condemn = prev.condemn ∧
    rec.stage_one_start = prev.stage_four_end ∧
    (∃ pp ga gb gc,
      (params.filter fun r => r.period == period).head? = some pp ∧
      sample_duration pp.stage_one_dist pp.stage_one_dist_value_1
        pp.stage_one_dist_value_2 g = (.ok rec.stage_one_duration, ga) ∧
      sample_duration pp.stage_two_dist pp.stage_two_dist_value_1
        pp.stage_two_dist_value_2 ga = (.ok rec.stage_two_duration, gb) ∧
      sample_duration pp.stage_three_dist pp.stage_three_dist_value_1
        pp.stage_three_dist_value_2 gb = (.ok rec.stage_three_duration, gc) ∧
      sample_duration pp.stage_four_dist pp.stage_four_dist_value_1
        pp.stage_four_dist_value_2 gc = (.ok rec.stage_four_duration, g2)) ∧
    (∃ y : ℚ, rec.stage_three_end = some y ∧
      (rec.stage_four_end = none ↔ (st : ℚ) < y + rec.stage_four_duration)) := by
  -- the predecessor's stage-4 end is defined
  obtain ⟨b, hbsim, hbno, hrb, hbp, hmax⟩ := active_proj_spec sim_df a ha
  have hbx : ∃ x : ℚ, b.stage_four_end = some x := by
    rcases hb4 : b.stage_four_end with _ | x
    · rw [hrb] at hae
      unfold roundRec at hae
      rw [hb4] at hae
      exact absurd hae (by simp [fround])
    · exact ⟨x, rfl⟩
  obtain ⟨x, hb4⟩ := hbx
  have hprevmem : prev ∈ sim_df.filter fun r => r.part_id == i :=
    getLast?_mem_of_eq hprev
  have hprevsim : prev ∈ sim_df := List.mem_of_mem_filter hprevmem
  have hprevi : prev.part_id = i := by
    have := List.of_mem_filter hprevmem
    simpa using this
  have hprevkey := hmax prev hprevsim (hno prev hprevsim)
    (by rw [hprevi, ← hai, ← hbp])
  have hpt : ∃ t : ℚ, prev.stage_four_end = some t := by
    rcases hp4 : prev.stage_four_end with _ | t
    · rw [hp4, hb4] at hprevkey
      exact absurd hprevkey (by simp [fkeyLe])
    · exact ⟨t, rfl⟩
  obtain ⟨t, hp4⟩ := hpt
  -- unfold the regeneration
  unfold generate_new_cycle at hok
  rw [hprev] at hok
  dsimp only at hok
  rcases hpp : (params.filter fun r => r.period == period).head? with _ | pp <;>
    rw [hpp] at hok
  · exact Except.noConfusion (congrArg Prod.fst hok)
  · dsimp only at hok
    rcases hs1 : sample_duration pp.stage_one_dist pp.stage_one_dist_value_1
        pp.stage_one_dist_value_2 g with ⟨r1, ga⟩
    rw [hs1] at hok
    rcases r1 with e | d1
    · exact Except.noConfusion (congrArg Prod.fst hok)
    · dsimp only at hok
      rcases hs2 : sample_duration pp.stage_two_dist pp.stage_two_dist_value_1
          pp.stage_two_dist_value_2 ga with ⟨r2, gb⟩
      rw [hs2] at hok
      rcases r2 with e | d2
      · exact Except.noConfusion (congrArg Prod.fst hok)
      · dsimp only at hok
        rcases hs3 : sample_duration pp.stage_three_dist
            pp.stage_three_dist_value_1 pp.stage_three_dist_value_2 gb with ⟨r3, gc⟩
        rw [hs3] at hok
        rcases r3 with e | d3
        · exact Except.noConfusion (congrArg Prod.fst hok)
        · dsimp only at hok
          rcases hs4 : sample_duration pp.stage_four_dist
              pp.stage_four_dist_value_1 pp.stage_four_dist_value_2 gc with ⟨r4, gd⟩
          rw [hs4] at hok
          rcases r4 with e | d4
          · exact Except.noConfusion (congrArg Prod.fst hok)
          · dsimp only at hok
            injection hok with h1 h2
            injection h1 with h3
            subst h2
            subst h3
            refine ⟨rfl, rfl, rfl, ⟨pp, ga, gb, gc, hpp, hs1, hs2, hs3, hs4⟩, ?_⟩
            refine ⟨t + d1 + d2 + d3, ?_, ?_⟩
            · show fadd (fadd (fadd prev.stage_four_end (some d1)) (some d2))
                (some d3) = some (t + d1 + d2 + d3)
              rw [hp4]
              rfl
            · show (if fgt (fadd (fadd (fadd (fadd prev.stage_four_end (some d1))
                  (some d2)) (some d3)) (some d4)) (st : ℚ) then none
                else fadd (fadd (fadd (fadd prev.stage_four_end (some d1))
                  (some d2)) (some d3)) (some d4)) = none ↔
                (st : ℚ) < t + d1 + d2 + d3 + d4
              rw [hp4]
              show (if fgt (some (t + d1 + d2 + d3 + d4)) (st : ℚ) then none
                else some (t + d1 + d2 + d3 + d4)) = (none : PFloat) ↔
                (st : ℚ) < t + d1 + d2 + d3 + d4
              by_cases hgt : (st : ℚ) < t + d1 + d2 + d3 + d4
              · simp [fgt, hgt]
              · simp [fgt, hgt]

/-- A one-record table for the regeneration witness: part one finishing
its first cycle at instant 5. -/
def c2prev : Record :=
  { period := none, part_id := 1, cycle := 1, condemn := "no"
    stage_one_duration := 1, stage_two_duration := 1
    stage_three_duration := 1, stage_four_duration := 1
    stage_one_start := some 1, stage_one_end := some 2
    stage_two_start := some 2, stage_two_end := some 3
    stage_three_start := some 3, stage_three_end := some 4
    stage_four_start := some 4, stage_four_end := some 5 }

/-- The period-5 parameter row for the regeneration witness:
all four stages normal with mean 1, stddev 0. -/
def c2row : ParamsRow :=
  { period := 5, n_total_parts := 1
    stage_one_dist := .str "normal", stage_one_dist_value_1 := 1
    stage_one_dist_value_2 := 0
    stage_two_dist := .str "normal", stage_two_dist_value_1 := 1
    stage_two_dist_value_2 := 0
    stage_three_dist := .str "normal", stage_three_dist_value_1 := 1
    stage_three_dist_value_2 := 0
    stage_four_dist := .str "normal", stage_four_dist_value_1 := 1
    stage_four_dist_value_2 := 0 }

/-- The cycle-2 record the engine regenerates in the witness scenario. -/
def c2rec : Record :=
  { period := some 5, part_id := 1, cycle := 2, condemn := "no"
    stage_one_duration := 1, stage_two_duration := 1
    stage_three_duration := 1, stage_four_duration := 1
    stage_one_start := some 5, stage_one_end := some 6
    stage_two_start := some 6, stage_two_end := some 7
    stage_three_start := some 7, stage_three_end := some 8
    stage_four_start := some 8, stage_four_end := some 9 }

/-- Projection of the witness table. -/
theorem c2_proj_eval :
    create_active_parts_df [c2prev] = [roundRec c2prev] := by
  simp [create_active_parts_df, List.insertionSort, List.orderedInsert,
    keepLast, c2prev, roundRec, fround]

/-- Concrete evaluation of the regeneration in the witness scenario. -/
theorem c2_gen_eval :
    generate_new_cycle 1 5 10 [c2row] [c2prev] zeroRng =
      (.ok c2rec, ⟨zeroRng.stream, 4⟩) := by
  norm_num [generate_new_cycle, sample_duration, c2prev, c2row, c2rec,
    fadd, fgt, zeroRng, Rng.head, Rng.next]

/-- C2 witness: the conclusions at the concrete scenario. -/
theorem regen_cycle_c2_witness :
    c2rec.cycle = c2prev.cycle + 1 ∧
    c2rec.condemn = c2prev.condemn ∧
    c2rec.stage_one_start = c2prev.stage_four_end ∧
    (∃ pp ga gb gc,
      (([c2row]).filter fun r => r.period == (5 : ℤ)).head? = some pp ∧
      sample_duration pp.stage_one_dist pp.stage_one_dist_value_1
        pp.stage_one_dist_value_2 zeroRng = (.ok c2rec.stage_one_duration, ga) ∧
      sample_duration pp.stage_two_dist pp.stage_two_dist_value_1
        pp.stage_two_dist_value_2 ga = (.ok c2rec.stage_two_duration, gb) ∧
      sample_duration pp.stage_three_dist pp.stage_three_dist_value_1
        pp.stage_three_dist_value_2 gb = (.ok c2rec.stage_three_duration, gc) ∧
      sample_duration pp.stage_four_dist pp.stage_four_dist_value_1
        pp.stage_four_dist_value_2 gc =
          (.ok c2rec.stage_four_duration, ⟨zeroRng.stream, 4⟩)) ∧
    (∃ y : ℚ, c2rec.stage_three_end = some y ∧
      (c2rec.stage_four_end = none ↔
        ((10 : ℕ) : ℚ) < y + c2rec.stage_four_duration)) :=
  regen_cycle_c2 [c2prev] [c2row] 5 10 zeroRng ⟨zeroRng.stream, 4⟩ 1
    (roundRec c2prev) c2prev c2rec
    (by intro r hr; rw [List.mem_singleton] at hr; subst hr; rfl)
    (by rw [c2_proj_eval]; exact List.mem_singleton.mpr rfl)
    rfl
    (by norm_num [roundRec, c2prev, fround, roundHalfEven])
    (by rfl)
    c2_gen_eval

/-! ## Mission-need overrides (claim C4) -/

/-- Unfolding rule for the override-mapping lookup. -/
theorem dictGet_cons (k : ℤ) (v : ℚ) (rest : MNOverrides) (p : ℤ) :
    dictGet ((k, v) :: rest) p = if k = p then some v else dictGet rest p := rfl

/-- Directives that are not Mission-Need-at-q leave the override mapping
at key q unchanged. -/
theorem apply_custom_params_ovr_absent (edits : List Edit) (q : ℤ) :
    ∀ st : List ParamsRow × MNOverrides,
      (∀ e ∈ edits, ¬(e.stage = "Mission Need" ∧ e.period = q)) →
      dictGet (apply_custom_params edits st).2 q = dictGet st.2 q := by
  induction edits with
  | nil => intro st _; rfl
  | cons e rest ih =>
    intro st h
    unfold apply_custom_params at ih ⊢
    rw [List.foldl_cons]
    rw [ih _ (fun e2 he2 => h e2 (List.mem_cons_of_mem e he2))]
    unfold apply_one
    split_ifs with hmn
    · have hne : e.period ≠ q :=
        fun hq => h e (List.mem_cons_self _ _) ⟨hmn, hq⟩
      show dictGet ((e.period, e.value) :: st.2) q = dictGet st.2 q
      rw [dictGet_cons, if_neg hne]
    · rcases STAGE_LABEL_MAP e.stage with _ | col <;> rfl

/-- A Mission-Need directive at period P with no later Mission-Need
directive for P leaves value V recorded for P. -/
theorem apply_custom_params_ovr_set (l1 l2 : List Edit) (P : ℤ) (V : ℚ)
    (st : List ParamsRow × MNOverrides)
    (hl2 : ∀ e ∈ l2, ¬(e.stage = "Mission Need" ∧ e.period = P)) :
    dictGet (apply_custom_params (l1 ++ ⟨P, "Mission Need", V⟩ :: l2) st).2 P =
      some V := by
  unfold apply_custom_params
  rw [List.foldl_append, List.foldl_cons]
  have habs := apply_custom_params_ovr_absent l2 P
    (apply_one (List.foldl apply_one st l1) ⟨P, "Mission Need", V⟩) hl2
  unfold apply_custom_params at habs
  rw [habs]
  show dictGet
    (apply_one (List.foldl apply_one st l1) ⟨P, "Mission Need", V⟩).2 P = some V
  unfold apply_one
  rw [if_pos rfl]
  show dictGet ((P, V) :: (List.foldl apply_one st l1).2) P = some V
  rw [dictGet_cons, if_pos rfl]

/-- With a non-empty override list, the override mapping of a built
table is the mapping the fold produces. -/
theorem create_params_df_ok_ovr (sim_time n : ℕ) (ds : List String)
    (p1 p2 : List ℚ) (custom : List Edit) (rows : List ParamsRow)
    (ovr : MNOverrides)
    (h : create_params_df sim_time n ds p1 p2 custom = .ok (rows, ovr))
    (hne : custom ≠ []) :
    ∃ base : List ParamsRow, ovr = (apply_custom_params custom (base, [])).2 := by
  rcases ds with _ | ⟨d1, _ | ⟨d2, _ | ⟨d3, _ | ⟨d4, dr⟩⟩⟩⟩ <;>
    rcases p1 with _ | ⟨a1, _ | ⟨a2, _ | ⟨a3, _ | ⟨a4, ar⟩⟩⟩⟩ <;>
      rcases p2 with _ | ⟨b1, _ | ⟨b2, _ | ⟨b3, _ | ⟨b4, br⟩⟩⟩⟩ <;>
        try exact Except.noConfusion h
  unfold create_params_df at h
  dsimp only at h
  rw [if_neg hne] at h
  injection h with h2
  exact ⟨_, (congrArg Prod.snd h2).symm⟩

/-- C4 counterexample: the override list
`[(period 1, Mission Need 5), (period 2, Mission Need 7)]` satisfies the
claim's hypotheses for the period-1 directive (the only later directive
is a Mission-Need directive for period 2, not for period 1), yet with
baseline mission need 3 the period step at period 2 uses effective need
7, not the baseline — so "every other period uses the baseline
mission_need" is false as stated. -/
theorem mission_need_override_c4_counterexample :
    ¬((⟨2, "Mission Need", 7⟩ : Edit).stage = "Mission Need" ∧
      (⟨2, "Mission Need", 7⟩ : Edit).period = 1) ∧
    simulate_period 3
      (apply_custom_params
        [⟨1, "Mission Need", 5⟩, ⟨2, "Mission Need", 7⟩] ([], [])).2
      2 [] 3 [] [] zeroRng = (.ok (⟨2, 0, 7, 7⟩, [], []), zeroRng) ∧
    ((7 : ℚ) ≠ ((3 : ℤ) : ℚ)) := by
  refine ⟨by simp, ?_, by norm_num⟩
  simp [simulate_period, genCycles, create_active_parts_df, keepLast,
    dictGet, apply_custom_params, apply_one, List.foldl]

/-- C4 (amended): if the override list contains the directive
(period P, "Mission Need", V) and no later Mission-Need directive for P,
then V is recorded in the separate mission-need-override mapping, no
parameter-table cell is modified by that directive, the period step at
period P uses effective need V, and every period with no Mission-Need
directive of its own uses the baseline mission need. -/
theorem mission_need_override_c4_amended
    (sim_time tp : ℕ) (mn : ℤ) (ds : List String) (q1 q2 : List ℚ)
    (l1 l2 : List Edit) (P : ℤ) (V : ℚ) (rows : List ParamsRow)
    (ovr : MNOverrides)
    (hok : create_params_df sim_time tp ds q1 q2
      (l1 ++ ⟨P, "Mission Need", V⟩ :: l2) = .ok (rows, ovr))
    (hl2 : ∀ e ∈ l2, ¬(e.stage = "Mission Need" ∧ e.period = P)) :
    dictGet ovr P = some V ∧
    (∀ st2 : List ParamsRow × MNOverrides,
      (apply_one st2 ⟨P, "Mission Need", V⟩).1 = st2.1) ∧
    (∀ (params : List ParamsRow) (st : ℕ) (sim_df active : List Record)
       (g g2 : Rng) (entry : MicapEntry) (s2 a2 : List Record),
      simulate_period mn ovr P params st sim_df active g =
        (.ok (entry, s2, a2), g2) →
      entry.mission_need = V) ∧
    (∀ q : ℤ, q ≠ P →
      (∀ e ∈ l1 ++ ⟨P, "Mission Need", V⟩ :: l2,
        ¬(e.stage = "Mission Need" ∧ e.period = q)) →
      ∀ (params : List ParamsRow) (st : ℕ) (sim_df active : List Record)
        (g g2 : Rng) (entry : MicapEntry) (s2 a2 : List Record),
        simulate_period mn ovr q params st sim_df active g =
          (.ok (entry, s2, a2), g2) →
        entry.mission_need = (mn : ℚ)) := by
  obtain ⟨base, hob⟩ := create_params_df_ok_ovr sim_time tp ds q1 q2
    (l1 ++ ⟨P, "Mission Need", V⟩ :: l2) rows ovr hok (by simp)
  have hset : dictGet ovr P = some V := by
    rw [hob]
    exact apply_custom_params_ovr_set l1 l2 P V (base, []) hl2
  refine ⟨hset, ?_, ?_, ?_⟩
  · intro st2
    unfold apply_one
    rw [if_pos rfl]
  · intro params st sim_df active g g2 entry s2 a2 h
    have he := simulate_period_ok_entry mn ovr P params st sim_df active g
      entry s2 a2 g2 h
    rw [he]
    show (dictGet ovr P).getD (mn : ℚ) = V
    rw [hset]
    rfl
  · intro q _ hq params st sim_df active g g2 entry s2 a2 h
    have he := simulate_period_ok_entry mn ovr q params st sim_df active g
      entry s2 a2 g2 h
    rw [he]
    show (dictGet ovr q).getD (mn : ℚ) = (mn : ℚ)
    have habs : dictGet ovr q = none := by
      rw [hob]
      rw [apply_custom_params_ovr_absent _ q (base, []) hq]
      rfl
    rw [habs]
    rfl

/-- The single parameter row of the C4 witness configuration. -/
def c4row : ParamsRow :=
  { period := 1, n_total_parts := 1
    stage_one_dist := .str "normal", stage_one_dist_value_1 := 1
    stage_one_dist_value_2 := 0
    stage_two_dist := .str "normal", stage_two_dist_value_1 := 1
    stage_two_dist_value_2 := 0
    stage_three_dist := .str "normal", stage_three_dist_value_1 := 1
    stage_three_dist_value_2 := 0
    stage_four_dist := .str "normal", stage_four_dist_value_1 := 1
    stage_four_dist_value_2 := 0 }

/-- C4 witness: the amended conclusions at a concrete one-period
configuration with the single override (period 1, Mission Need 5) and
baseline 3. -/
theorem mission_need_override_c4_witness :
    dictGet [((1 : ℤ), (5 : ℚ))] 1 = some 5 ∧
    (apply_one (([], []) : List ParamsRow × MNOverrides)
      ⟨1, "Mission Need", 5⟩).1 = [] ∧
    (⟨1, 0, 5, 5⟩ : MicapEntry).mission_need = 5 ∧
    (⟨2, 0, 3, 3⟩ : MicapEntry).mission_need = ((3 : ℤ) : ℚ) := by
  have h := mission_need_override_c4_amended 1 1 3
    ["normal", "normal", "normal", "normal"] [1, 1, 1, 1] [0, 0, 0, 0]
    [] [] 1 5 [c4row] [(1, 5)]
    (by simp [create_params_df, apply_custom_params, apply_one, c4row,
      List.foldl, (show List.range 1 = [0] from rfl)])
    (by intro e he; exact absurd he (List.not_mem_nil e))
  refine ⟨h.1, h.2.1 ([], []), ?_, ?_⟩
  · exact h.2.2.1 [] 1 [] [] zeroRng zeroRng ⟨1, 0, 5, 5⟩ [] []
      (by simp [simulate_period, genCycles, create_active_parts_df, keepLast,
        dictGet])
  · exact h.2.2.2 2 (by norm_num)
      (by
        intro e he
        rw [List.nil_append, List.mem_singleton] at he
        subst he
        simp)
      [] 1 [] [] zeroRng zeroRng ⟨2, 0, 3, 3⟩ [] []
      (by simp [simulate_period, genCycles, create_active_parts_df, keepLast,
        dictGet])

/-! ## The end-to-end deterministic scenario (claim C3) -/

/-- A parameter row of the C3 scenario: all four stages normal with
mean 1, stddev 0. -/
def c3row (p : ℤ) : ParamsRow :=
  { period := p, n_total_parts := 1
    stage_one_dist := .str "normal", stage_one_dist_value_1 := 1
    stage_one_dist_value_2 := 0
    stage_two_dist := .str "normal", stage_two_dist_value_1 := 1
    stage_two_dist_value_2 := 0
    stage_three_dist := .str "normal", stage_three_dist_value_1 := 1
    stage_three_dist_value_2 := 0
    stage_four_dist := .str "normal", stage_four_dist_value_1 := 1
    stage_four_dist_value_2 := 0 }

/-- The ten-period parameter table of the C3 scenario. -/
def c3params : List ParamsRow :=
  [c3row 1, c3row 2, c3row 3, c3row 4, c3row 5, c3row 6, c3row 7, c3row 8,
   c3row 9, c3row 10]

/-- The initial lifecycle record of the C3 scenario: stage boundaries
at 1, 2, 3, 4, 5. -/
def c3rec1 : Record :=
  { period := none, part_id := 1, cycle := 1, condemn := "no"
    stage_one_duration := 1, stage_two_duration := 1
    stage_three_duration := 1, stage_four_duration := 1
    stage_one_start := some 1, stage_one_end := some 2
    stage_two_start := some 2, stage_two_end := some 3
    stage_three_start := some 3, stage_three_end := some 4
    stage_four_start := some 4, stage_four_end := some 5 }

/-- The cycle-2 record regenerated at period 5. -/
def c3rec2 : Record :=
  { period := some 5, part_id := 1, cycle := 2, condemn := "no"
    stage_one_duration := 1, stage_two_duration := 1
    stage_three_duration := 1, stage_four_duration := 1
    stage_one_start := some 5, stage_one_end := some 6
    stage_two_start := some 6, stage_two_end := some 7
    stage_three_start := some 7, stage_three_end := some 8
    stage_four_start := some 8, stage_four_end := some 9 }

/-- The cycle-3 record regenerated at period 9; its stage-4 end would be
13 > 10, so it is recorded as missing. -/
def c3rec3 : Record :=
  { period := some 9, part_id := 1, cycle := 3, condemn := "no"
    stage_one_duration := 1, stage_two_duration := 1
    stage_three_duration := 1, stage_four_duration := 1
    stage_one_start := some 9, stage_one_end := some 10
    stage_two_start := some 10, stage_two_end := some 11
    stage_three_start := some 11, stage_three_end := some 12
    stage_four_start := some 12, stage_four_end := none }

/-- Building the C3 parameter table. -/
theorem c3_create :
    create_params_df 10 1 ["normal", "normal", "normal", "normal"]
      [1, 1, 1, 1] [0, 0, 0, 0] [] = .ok (c3params, []) := rfl

/-- A stddev-0 normal sample is exactly its mean, whatever the stream
holds, and consumes one draw. -/
theorem sd0 (g : Rng) :
    sample_duration (.str "normal") 1 0 g = (.ok 1, g.next) := by
  unfold sample_duration
  rw [if_pos rfl]
  norm_num

/-- One stddev-0 column draw for a single part. -/
theorem sd0col (g : Rng) :
    sampleColumn (.str "normal") 1 0 1 g = (.ok [1], g.next) := by
  simp [sampleColumn, sd0]

/-- The initial table of the C3 scenario, from any stream state. -/
theorem c3_init (g : Rng) :
    create_initial_sim_df c3params 1 g =
      (.ok [c3rec1], ⟨g.stream, g.idx + 4⟩) := by
  simp [create_initial_sim_df, c3params, c3row, sd0col, buildInitRecords,
    c3rec1, Rng.next]
  norm_num

/-- Rounding the defined end instants of the scenario. -/
theorem c3_round5 : fround (some 5) = some 5 := by
  norm_num [fround, roundHalfEven]

/-- Rounding of the instant 9. -/
theorem c3_round9 : fround (some 9) = some 9 := by
  norm_num [fround, roundHalfEven]

/-- Projection of the one-record table. -/
theorem c3_proj1 : create_active_parts_df [c3rec1] = [c3rec1] := by
  simp [create_active_parts_df, List.insertionSort, List.orderedInsert,
    keepLast, roundRec, c3_round5, c3rec1]

/-- Projection after the period-5 regeneration. -/
theorem c3_proj2 : create_active_parts_df [c3rec1, c3rec2] = [c3rec2] := by
  simp [create_active_parts_df, List.insertionSort, List.orderedInsert,
    keepLast, roundRec, c3_round9, c3rec1, c3rec2, RecLE, pandasLe, fkeyLe]

/-- Projection after the period-9 regeneration. -/
theorem c3_proj3 :
    create_active_parts_df [c3rec1, c3rec2, c3rec3] = [c3rec3] := by
  simp [create_active_parts_df, List.insertionSort, List.orderedInsert,
    keepLast, roundRec, fround, c3rec1, c3rec2, c3rec3, RecLE, pandasLe, fkeyLe]

/-- The regeneration at period 5. -/
theorem c3_gen5 (g : Rng) :
    generate_new_cycle 1 5 10 c3params [c3rec1] g =
      (.ok c3rec2, ⟨g.stream, g.idx + 4⟩) := by
  simp [generate_new_cycle, c3params, c3row, sd0, fadd, fgt, c3rec1, c3rec2,
    Rng.next]
  norm_num

/-- The regeneration at period 9: the new stage-4 end would be 13,
beyond the 10-period horizon, so it is recorded as missing. -/
theorem c3_gen9 (g : Rng) :
    generate_new_cycle 1 9 10 c3params [c3rec1, c3rec2] g =
      (.ok c3rec3, ⟨g.stream, g.idx + 4⟩) := by
  simp [generate_new_cycle, c3params, c3row, sd0, fadd, fgt, c3rec1, c3rec2,
    c3rec3, Rng.next]
  norm_num

/-- A period step with no finishing part: the tables pass through
unchanged (the projection is recomputed from the same table). -/
theorem simulate_period_no_end (mn : ℤ) (ovr : MNOverrides) (period : ℤ)
    (params : List ParamsRow) (st : ℕ) (sim_df active : List Record) (g : Rng)
    (h : active.filter (fun r => feq r.stage_four_end (period : ℚ)) = []) :
    simulate_period mn ovr period params st sim_df active g =
      (.ok ({ period := period
              active_stage_one := (sim_df.filter fun r =>
                fle r.stage_one_start (period : ℚ) &&
                  fgt r.stage_one_end (period : ℚ) && r.condemn == "no").length
              mission_need := (dictGet ovr period).getD (mn : ℚ)
              micap := max 0 ((dictGet ovr period).getD (mn : ℚ) -
                (sim_df.filter fun r =>
                  fle r.stage_one_start (period : ℚ) &&
                    fgt r.stage_one_end (period : ℚ) &&
                      r.condemn == "no").length) },
        sim_df, create_active_parts_df sim_df), g) := by
  unfold simulate_period
  dsimp only
  rw [h]
  rw [List.map_nil]
  unfold genCycles
  dsimp only
  rw [List.append_nil]

/-- A period step with exactly one finishing part: the regenerated
record is appended and the projection recomputed. -/
theorem simulate_period_one_end (mn : ℤ) (ovr : MNOverrides) (period : ℤ)
    (params : List ParamsRow) (st : ℕ) (sim_df active : List Record)
    (g g2 : Rng) (i : ℕ) (rec : Record)
    (h : (active.filter fun r => feq r.stage_four_end (period : ℚ)).map
      (fun r => r.part_id) = [i])
    (hgen : generate_new_cycle i period st params sim_df g = (.ok rec, g2)) :
    simulate_period mn ovr period params st sim_df active g =
      (.ok ({ period := period
              active_stage_one := (sim_df.filter fun r =>
                fle r.stage_one_start (period : ℚ) &&
                  fgt r.stage_one_end (period : ℚ) && r.condemn == "no").length
              mission_need := (dictGet ovr period).getD (mn : ℚ)
              micap := max 0 ((dictGet ovr period).getD (mn : ℚ) -
                (sim_df.filter fun r =>
                  fle r.stage_one_start (period : ℚ) &&
                    fgt r.stage_one_end (period : ℚ) &&
                      r.condemn == "no").length) },
        sim_df ++ [rec], create_active_parts_df (sim_df ++ [rec])), g2) := by
  unfold simulate_period
  dsimp only
  rw [h]
  unfold genCycles
  rw [hgen]
  dsimp only
  unfold genCycles
  dsimp only

/-- Period 1: the part is inside stage one, no shortfall. -/
theorem c3_step1 (g : Rng) :
    simulate_period 1 [] 1 c3params 10 [c3rec1] [c3rec1] g =
      (.ok (⟨1, 1, 1, 0⟩, [c3rec1], [c3rec1]), g) := by
  rw [simulate_period_no_end 1 [] 1 c3params 10 [c3rec1] [c3rec1] g
    (by norm_num [feq, c3rec1])]
  rw [c3_proj1]
  norm_num [fle, fgt, c3rec1, dictGet]

/-- Period 2: the part has left stage one, shortfall 1. -/
theorem c3_step2 (g : Rng) :
    simulate_period 1 [] 2 c3params 10 [c3rec1] [c3rec1] g =
      (.ok (⟨2, 0, 1, 1⟩, [c3rec1], [c3rec1]), g) := by
  rw [simulate_period_no_end 1 [] 2 c3params 10 [c3rec1] [c3rec1] g
    (by norm_num [feq, c3rec1])]
  rw [c3_proj1]
  norm_num [fle, fgt, c3rec1, dictGet]

/-- Period 3. -/
theorem c3_step3 (g : Rng) :
    simulate_period 1 [] 3 c3params 10 [c3rec1] [c3rec1] g =
      (.ok (⟨3, 0, 1, 1⟩, [c3rec1], [c3rec1]), g) := by
  rw [simulate_period_no_end 1 [] 3 c3params 10 [c3rec1] [c3rec1] g
    (by norm_num [feq, c3rec1])]
  rw [c3_proj1]
  norm_num [fle, fgt, c3rec1, dictGet]

/-- Period 4. -/
theorem c3_step4 (g : Rng) :
    simulate_period 1 [] 4 c3params 10 [c3rec1] [c3rec1] g =
      (.ok (⟨4, 0, 1, 1⟩, [c3rec1], [c3rec1]), g) := by
  rw [simulate_period_no_end 1 [] 4 c3params 10 [c3rec1] [c3rec1] g
    (by norm_num [feq, c3rec1])]
  rw [c3_proj1]
  norm_num [fle, fgt, c3rec1, dictGet]

/-- Period 5: the first cycle ends and cycle 2 is regenerated with
stage-1 start 5. -/
theorem c3_step5 (g : Rng) :
    simulate_period 1 [] 5 c3params 10 [c3rec1] [c3rec1] g =
      (.ok (⟨5, 0, 1, 1⟩, [c3rec1, c3rec2], [c3rec2]), ⟨g.stream, g.idx + 4⟩) := by
  rw [simulate_period_one_end 1 [] 5 c3params 10 [c3rec1] [c3rec1] g
    ⟨g.stream, g.idx + 4⟩ 1 c3rec2
    (by norm_num [feq, c3rec1]) (c3_gen5 g)]
  rw [show ([c3rec1] ++ [c3rec2] : List Record) = [c3rec1, c3rec2] from rfl]
  rw [c3_proj2]
  norm_num [fle, fgt, c3rec1, dictGet]

/-- Period 6. -/
theorem c3_step6 (g : Rng) :
    simulate_period 1 [] 6 c3params 10 [c3rec1, c3rec2] [c3rec2] g =
      (.ok (⟨6, 0, 1, 1⟩, [c3rec1, c3rec2], [c3rec2]), g) := by
  rw [simulate_period_no_end 1 [] 6 c3params 10 [c3rec1, c3rec2] [c3rec2] g
    (by norm_num [feq, c3rec2])]
  rw [c3_proj2]
  norm_num [fle, fgt, c3rec1, c3rec2, dictGet]

/-- Period 7. -/
theorem c3_step7 (g : Rng) :
    simulate_period 1 [] 7 c3params 10 [c3rec1, c3rec2] [c3rec2] g =
      (.ok (⟨7, 0, 1, 1⟩, [c3rec1, c3rec2], [c3rec2]), g) := by
  rw [simulate_period_no_end 1 [] 7 c3params 10 [c3rec1, c3rec2] [c3rec2] g
    (by norm_num [feq, c3rec2])]
  rw [c3_proj2]
  norm_num [fle, fgt, c3rec1, c3rec2, dictGet]

/-- Period 8. -/
theorem c3_step8 (g : Rng) :
    simulate_period 1 [] 8 c3params 10 [c3rec1, c3rec2] [c3rec2] g =
      (.ok (⟨8, 0, 1, 1⟩, [c3rec1, c3rec2], [c3rec2]), g) := by
  rw [simulate_period_no_end 1 [] 8 c3params 10 [c3rec1, c3rec2] [c3rec2] g
    (by norm_num [feq, c3rec2])]
  rw [c3_proj2]
  norm_num [fle, fgt, c3rec1, c3rec2, dictGet]

/-- Period 9: the second cycle ends and cycle 3 is regenerated with an
open stage-4 end. -/
theorem c3_step9 (g : Rng) :
    simulate_period 1 [] 9 c3params 10 [c3rec1, c3rec2] [c3rec2] g =
      (.ok (⟨9, 0, 1, 1⟩, [c3rec1, c3rec2, c3rec3], [c3rec3]),
        ⟨g.stream, g.idx + 4⟩) := by
  rw [simulate_period_one_end 1 [] 9 c3params 10 [c3rec1, c3rec2] [c3rec2] g
    ⟨g.stream, g.idx + 4⟩ 1 c3rec3
    (by norm_num [feq, c3rec2]) (c3_gen9 g)]
  rw [show ([c3rec1, c3rec2] ++ [c3rec3] : List Record) =
    [c3rec1, c3rec2, c3rec3] from rfl]
  rw [c3_proj3]
  norm_num [fle, fgt, c3rec1, c3rec2, dictGet]

/-- Period 10: the open cycle never ends again. -/
theorem c3_step10 (g : Rng) :
    simulate_period 1 [] 10 c3params 10 [c3rec1, c3rec2, c3rec3] [c3rec3] g =
      (.ok (⟨10, 0, 1, 1⟩, [c3rec1, c3rec2, c3rec3], [c3rec3]), g) := by
  rw [simulate_period_no_end 1 [] 10 c3params 10 [c3rec1, c3rec2, c3rec3]
    [c3rec3] g (by norm_num [feq, c3rec3])]
  rw [c3_proj3]
  norm_num [fle, fgt, c3rec1, c3rec2, c3rec3, dictGet]

/-- Full evaluation of the C3 run from any stream state: three lifecycle
records, a ten-entry MICAP log, twelve draws consumed. -/
theorem c3_run_eval (g : Rng) :
    run_simulation 10 1 1 ["normal", "normal", "normal", "normal"]
      [1, 1, 1, 1] [0, 0, 0, 0] [] g =
    (.ok ([c3rec1, c3rec2, c3rec3],
      [⟨1, 1, 1, 0⟩, ⟨2, 0, 1, 1⟩, ⟨3, 0, 1, 1⟩, ⟨4, 0, 1, 1⟩, ⟨5, 0, 1, 1⟩,
       ⟨6, 0, 1, 1⟩, ⟨7, 0, 1, 1⟩, ⟨8, 0, 1, 1⟩, ⟨9, 0, 1, 1⟩, ⟨10, 0, 1, 1⟩]),
      ⟨g.stream, g.idx + 12⟩) := by
  unfold run_simulation
  rw [c3_create]
  dsimp only
  rw [c3_init g]
  dsimp only
  unfold process_simulation
  rw [show c3params.map (fun r => r.period) =
    [1, 2, 3, 4, 5, 6, 7, 8, 9, 10] from rfl]
  rw [c3_proj1]
  unfold sim_loop
  rw [c3_step1]
  dsimp only
  unfold sim_loop
  rw [c3_step2]
  dsimp only
  unfold sim_loop
  rw [c3_step3]
  dsimp only
  unfold sim_loop
  rw [c3_step4]
  dsimp only
  unfold sim_loop
  rw [c3_step5]
  dsimp only
  unfold sim_loop
  rw [c3_step6]
  dsimp only
  unfold sim_loop
  rw [c3_step7]
  dsimp only
  unfold sim_loop
  rw [c3_step8]
  dsimp only
  unfold sim_loop
  rw [c3_step9]
  dsimp only
  unfold sim_loop
  rw [c3_step10]
  dsimp only
  unfold sim_loop
  norm_num

/-- C3: in the scenario sim_time 10, one part, mission need 1, all four
stages normal with mean 1 and stddev 0, every sampled duration is
exactly 1 whatever the random stream holds; the initial record has stage
boundaries 1-2, 2-3, 3-4, 4-5; and at period 5 the part completes its
first cycle and a cycle-2 record tagged with period 5 is appended with
stage-1 start 5. -/
theorem scenario_c3 (g : Rng) :
    ∃ out log,
      run_simulation 10 1 1 ["normal", "normal", "normal", "normal"]
        [1, 1, 1, 1] [0, 0, 0, 0] [] g =
        (.ok (out, log), ⟨g.stream, g.idx + 12⟩) ∧
      (∀ r ∈ out, r.stage_one_duration = 1 ∧ r.stage_two_duration = 1 ∧
        r.stage_three_duration = 1 ∧ r.stage_four_duration = 1) ∧
      (∃ r0, out.head? = some r0 ∧ r0.cycle = 1 ∧
        r0.stage_one_start = some 1 ∧ r0.stage_one_end = some 2 ∧
        r0.stage_two_start = some 2 ∧ r0.stage_two_end = some 3 ∧
        r0.stage_three_start = some 3 ∧ r0.stage_three_end = some 4 ∧
        r0.stage_four_start = some 4 ∧ r0.stage_four_end = some 5) ∧
      (∃ r2 ∈ out, r2.cycle = 2 ∧ r2.period = some 5 ∧
        r2.stage_one_start = some 5) := by
  refine ⟨[c3rec1, c3rec2, c3rec3], _, c3_run_eval g, ?_, ?_, ?_⟩
  · intro r hr
    rcases List.mem_cons.mp hr with h | hr
    · subst h; exact ⟨rfl, rfl, rfl, rfl⟩
    rcases List.mem_cons.mp hr with h | hr
    · subst h; exact ⟨rfl, rfl, rfl, rfl⟩
    rcases List.mem_cons.mp hr with h | hr
    · subst h; exact ⟨rfl, rfl, rfl, rfl⟩
    exact absurd hr (List.not_mem_nil r)
  · exact ⟨c3rec1, rfl, rfl, rfl, rfl, rfl, rfl, rfl, rfl, rfl, rfl⟩
  · exact ⟨c3rec2, by simp, rfl, rfl, rfl⟩

/-- C3 witness: the scenario conclusions at the all-zeros stream. -/
theorem scenario_c3_witness :
    ∃ out log,
      run_simulation 10 1 1 ["normal", "normal", "normal", "normal"]
        [1, 1, 1, 1] [0, 0, 0, 0] [] zeroRng =
        (.ok (out, log), ⟨zeroRng.stream, zeroRng.idx + 12⟩) ∧
      (∀ r ∈ out, r.stage_one_duration = 1 ∧ r.stage_two_duration = 1 ∧
        r.stage_three_duration = 1 ∧ r.stage_four_duration = 1) ∧
      (∃ r0, out.head? = some r0 ∧ r0.cycle = 1 ∧
        r0.stage_one_start = some 1 ∧ r0.stage_one_end = some 2 ∧
        r0.stage_two_start = some 2 ∧ r0.stage_two_end = some 3 ∧
        r0.stage_three_start = some 3 ∧ r0.stage_three_end = some 4 ∧
        r0.stage_four_start = some 4 ∧ r0.stage_four_end = some 5) ∧
      (∃ r2 ∈ out, r2.cycle = 2 ∧ r2.period = some 5 ∧
        r2.stage_one_start = some 5) :=
  scenario_c3 zeroRng

end DES
